import Mathlib

/-!
Verification development for the essay-analysis pipeline of the
english_learning_app repository.  The Python sources under
app/services/text_analysis are shallowly embedded: pure scoring
functions become Lean functions over rational numbers, dictionaries
become association lists or functions, and the external collaborators
(spaCy annotation, LanguageTool, WordNet) appear as explicit function
parameters so that theorems can quantify over their behaviour.
-/

namespace EnglishApp

/- ------------------------------------------------------------------ -/
/- Python string helpers: str.split(), str.strip(), str.lower()       -/
/- ------------------------------------------------------------------ -/

/-- Whitespace characters recognised by Python's default str.split /
str.strip (ASCII subset; the texts handled by the app are ASCII). -/
def isPySpace (c : Char) : Bool :=
  c = ' ' || c = '\t' || c = '\n' || c = '\r' || c = '\x0b' || c = '\x0c'

/-- Worker for `pySplit`: accumulates the current chunk (reversed). -/
def splitAux : List Char → List Char → List (List Char)
  | [], [] => []
  | [], acc => [acc.reverse]
  | c :: cs, acc =>
    if isPySpace c then
      if acc = [] then splitAux cs [] else acc.reverse :: splitAux cs []
    else
      splitAux cs (c :: acc)

/-- Embedding of Python `text.split()` (no argument): the list of maximal
whitespace-separated chunks, with no empty chunks. -/
def pySplit (s : String) : List (List Char) :=
  splitAux s.toList []

/-- Embedding of Python `text.strip()` on the character list. -/
def pyStrip (l : List Char) : List Char :=
  ((l.dropWhile isPySpace).reverse.dropWhile isPySpace).reverse

/-- Embedding of Python `text.lower()` for the ASCII texts involved. -/
def pyLower (s : String) : String :=
  String.mk (s.toList.map Char.toLower)

/- ------------------------------------------------------------------ -/
/- analyzer.py: _validate_text and the analyze_essay entry gate       -/
/- ------------------------------------------------------------------ -/

/-- Result of `EnglishAnalyzer._validate_text`: word count, validity flag
and status string ("TOO_SHORT" / "TOO_LONG" / "VALID"). -/
structure ValidationInfo where
  wordCount : Nat
  isValid : Bool
  status : String
deriving DecidableEq, Repr

/-- Embedding of `EnglishAnalyzer._validate_text`: `words = text.split()`,
`word_count = len(words)`, status by comparison with 90 and 400. -/
def validateText (text : String) : ValidationInfo :=
  let wordCount := (pySplit text).length
  let status :=
    if wordCount < 90 then "TOO_SHORT"
    else if wordCount > 400 then "TOO_LONG"
    else "VALID"
  { wordCount := wordCount, isValid := status = "VALID", status := status }

/-- Embedding of `EnglishAnalyzer._count_sentences`: the text is split at
every sentence-ending character from `[.!?]+` and the chunks that are
non-empty after stripping are counted (splitting at each single ender is
count-equivalent to splitting at maximal runs, because the extra chunks
produced between two adjacent enders are empty). -/
def isSentEnd (c : Char) : Bool := c = '.' || c = '!' || c = '?'

def splitSentAux : List Char → List Char → List (List Char)
  | [], acc => [acc.reverse]
  | c :: cs, acc =>
    if isSentEnd c then acc.reverse :: splitSentAux cs []
    else splitSentAux cs (c :: acc)

def countSentences (text : String) : Nat :=
  ((splitSentAux text.toList []).filter (fun s => pyStrip s ≠ [])).length

/- ------------------------------------------------------------------ -/
/- models.py: enums                                                   -/
/- ------------------------------------------------------------------ -/

/-- models.py `CEFRLevel`, a string enum ordered A1 < A2 < ... < C2 (the
string values "A1".."C2" compare lexicographically in this same order). -/
inductive CEFRLevel where
  | A1 | A2 | B1 | B2 | C1 | C2
deriving DecidableEq, Repr

/-- The CEFR ladder in ascending order, as `list(CEFRLevel)` iterates it. -/
def cefrOrder : List CEFRLevel :=
  [.A1, .A2, .B1, .B2, .C1, .C2]

/-- models.py `QuestionType`. -/
inductive QuestionType where
  | GRAMMAR_TENSES | GRAMMAR_ARTICLES | GRAMMAR_PREPOSITIONS
  | GRAMMAR_CONDITIONALS | VOCABULARY_COMPLEXITY
  | VOCABULARY_APPROPRIATENESS | VOCABULARY_COLLOCATIONS
deriving DecidableEq, Repr

/-- models.py `GrammarAspect` (all 18 enum members; the grammar engine
tracks only the 15-element universe `allAspects` below). -/
inductive GrammarAspect where
  | PRESENT_SIMPLE | PRESENT_CONTINUOUS | PAST_SIMPLE | PAST_CONTINUOUS
  | PRESENT_PERFECT | PAST_PERFECT | FUTURE_SIMPLE | FUTURE_CONTINUOUS
  | FUTURE_PERFECT | CONDITIONALS | PASSIVE_VOICE | MODAL_VERBS
  | RELATIVE_CLAUSES | ARTICLES | PREPOSITIONS
  | VOCABULARY_USAGE | VOCABULARY_COLLOCATIONS | SENTENCE_STRUCTURE
deriving DecidableEq, Repr

open GrammarAspect

/-- grammar_analyzer.py `GrammarAnalyzer._all_aspects`: the fixed
15-aspect universe. -/
def allAspects : Finset GrammarAspect :=
  { PRESENT_SIMPLE, PRESENT_CONTINUOUS, PAST_SIMPLE, PAST_CONTINUOUS,
    PRESENT_PERFECT, PAST_PERFECT, FUTURE_SIMPLE, FUTURE_CONTINUOUS,
    FUTURE_PERFECT, CONDITIONALS, PASSIVE_VOICE, MODAL_VERBS,
    RELATIVE_CLAUSES, ARTICLES, PREPOSITIONS }

/- ------------------------------------------------------------------ -/
/- grammar_checker.py: result bundle and score                        -/
/- ------------------------------------------------------------------ -/

/-- The bundle returned by `GrammarCheckService.check_text`; the
per-aspect error buckets are kept as an association list mapping an
aspect to the size of its bucket (`len(errors)` is all the grammar
engine reads from a bucket). -/
structure CheckResult where
  totalErrors : Nat
  errorsByAspect : List (GrammarAspect × Nat)
  correctedText : String
deriving DecidableEq, Repr

/-- The zero-error bundle `{"total_errors": 0, "errors_by_aspect": {},
"corrected_text": text, "extras": {}}` produced for blank text or an
unavailable tool. -/
def zeroCheck (text : String) : CheckResult :=
  { totalErrors := 0, errorsByAspect := [], correctedText := text }

/-- Embedding of `GrammarCheckService.calculate_grammar_score`:
the returned bucket value as a function of the branch conditions
(blank text / zero word count / missing tool give 100; otherwise the
error-density thresholds pick a bucket).  `errorDensity` stands for
`total_errors / word_count`. -/
def calculateGrammarScore (toolAvailable : Bool) (textBlank : Bool)
    (wordCount : Nat) (errorDensity : ℚ) : ℚ :=
  if textBlank ∨ wordCount = 0 ∨ ¬toolAvailable then 100
  else if errorDensity = 0 then 100
  else if errorDensity < 1/100 then 90
  else if errorDensity < 3/100 then 80
  else if errorDensity < 5/100 then 70
  else if errorDensity < 1/10 then 60
  else 50

/-- Embedding of `GrammarCheckService._fallback_grammar_score` (the
heuristic used when LanguageTool raises): bucket by the ratio of
capitalisation and punctuation errors to the word count. -/
def fallbackGrammarScore (wordCount : Nat) (errorDensity : ℚ) : ℚ :=
  if wordCount = 0 then 100
  else if errorDensity = 0 then 95
  else if errorDensity < 1/50 then 85
  else if errorDensity < 1/20 then 75
  else if errorDensity < 1/10 then 65
  else 55

/- ------------------------------------------------------------------ -/
/- grammar_analyzer.py: token model and the aspect scan               -/
/- ------------------------------------------------------------------ -/

/-- A spaCy token as the grammar engine reads it: surface text, coarse
POS, fine tag, dependency label, the fields it accesses on `token.head`
(text, POS, dependency), and the surface texts of `token.children` in
order.  The parse structure is flattened because only these projections
are ever dereferenced. -/
structure Tok where
  text : String
  pos : String
  tag : String
  dep : String
  headText : String
  headPos : String
  headDep : String
  childTexts : List String
deriving DecidableEq, Repr

/-- A spaCy document as the engine reads it: the token sequence plus the
sentence partition `doc.sents`. -/
structure DocM where
  toks : List Tok
  sents : List (List Tok)
deriving Repr

/-- The child loop of the VBG branch of
`GrammarAnalyzer._identify_tense`: the first child that is one of
am/is/are/was/were decides continuous tense; default present
continuous. -/
def vbgTense (t : Tok) : GrammarAspect :=
  match t.childTexts.find? (fun ch =>
      pyLower ch = "am" ∨ pyLower ch = "is" ∨ pyLower ch = "are" ∨
      pyLower ch = "was" ∨ pyLower ch = "were") with
  | some ch =>
      if pyLower ch = "am" ∨ pyLower ch = "is" ∨ pyLower ch = "are" then
        PRESENT_CONTINUOUS
      else PAST_CONTINUOUS
  | none => PRESENT_CONTINUOUS

/-- The child loop and head fallback of the VBN branch of
`GrammarAnalyzer._identify_tense`: the first child that is one of
have/has/had decides perfect tense; otherwise the governing head word
decides; default present perfect. -/
def vbnTense (t : Tok) : GrammarAspect :=
  match t.childTexts.find? (fun ch =>
      pyLower ch = "have" ∨ pyLower ch = "has" ∨ pyLower ch = "had") with
  | some ch =>
      if pyLower ch = "have" ∨ pyLower ch = "has" then PRESENT_PERFECT
      else PAST_PERFECT
  | none =>
      if pyLower t.headText = "have" ∨ pyLower t.headText = "has" then
        PRESENT_PERFECT
      else if pyLower t.headText = "had" then PAST_PERFECT
      else PRESENT_PERFECT

/-- Embedding of `GrammarAnalyzer._identify_tense` (the Python local
`low = token.text.lower()` is inlined as `pyLower t.text`). -/
def identifyTense (t : Tok) : Option GrammarAspect :=
  if pyLower t.text = "will" ∧ t.headPos = "VERB" then some FUTURE_SIMPLE
  else if pyLower t.text = "going" ∧
      t.childTexts.any (fun ch => pyLower ch = "to") then
    some FUTURE_SIMPLE
  else if pyLower t.text = "would" ∧ t.headPos = "VERB" then some CONDITIONALS
  else if t.pos ≠ "VERB" then none
  else if t.tag = "VBP" ∨ t.tag = "VBZ" then some PRESENT_SIMPLE
  else if t.tag = "VBD" then some PAST_SIMPLE
  else if t.tag = "VBG" then some (vbgTense t)
  else if t.tag = "VBN" then some (vbnTense t)
  else none

/-- Embedding of `GrammarAnalyzer._assess_tense_correctness`: a fixed
base-score lookup with default `70.0`. -/
def assessTenseCorrectness (tense : GrammarAspect) : ℚ :=
  match tense with
  | PRESENT_SIMPLE => 85
  | PAST_SIMPLE => 80
  | PRESENT_CONTINUOUS => 75
  | PAST_CONTINUOUS => 70
  | PRESENT_PERFECT => 72
  | PAST_PERFECT => 68
  | FUTURE_SIMPLE => 78
  | FUTURE_CONTINUOUS => 70
  | FUTURE_PERFECT => 68
  | CONDITIONALS => 72
  | _ => 70

/-- `first in "aeiou"` for the one-character (or empty) string obtained
by `next_token.text[:1].lower()`; in Python the empty string is a
substring of "aeiou", so an empty token text passes the vowel test. -/
def isVowelFirst (s : String) : Bool :=
  s = "" || s = "a" || s = "e" || s = "i" || s = "o" || s = "u"

/-- `next_token.text[:1].lower()`. -/
def firstCharLower (s : String) : String :=
  match s.toList with
  | [] => ""
  | c :: _ => String.mk [c.toLower]

/-- Embedding of `GrammarAnalyzer._assess_article_correctness`; `next?`
is the token that follows the article in the document, if any (the
Python code locates it by scanning for the token's position). -/
def assessArticleCorrectness (t : Tok) (next? : Option Tok) : ℚ :=
  let article := pyLower t.text
  match next? with
  | some nt =>
      if nt.pos = "NOUN" then
        let first := firstCharLower nt.text
        if article = "a" ∧ isVowelFirst first then 40
        else if article = "an" ∧ ¬isVowelFirst first then 40
        else 85
      else 70
  | none => 70

/-- Embedding of `GrammarAnalyzer._assess_preposition_correctness`:
constant placeholder of 75. -/
def assessPrepositionCorrectness : ℚ := 75

/-- `aspect in aspects` for the insertion-ordered association list that
embeds the `aspects` dict of the scan. -/
def hasAspect (acc : List (GrammarAspect × ℚ)) (a : GrammarAspect) : Bool :=
  (List.lookup a acc).isSome

/-- First-occurrence-wins insertion into the `aspects` dict of the scan:
the entry is appended only when the guarding condition holds and the
aspect is not yet present. -/
def condInsert (acc : List (GrammarAspect × ℚ)) (cond : Bool)
    (a : GrammarAspect) (v : ℚ) : List (GrammarAspect × ℚ) :=
  if cond ∧ ¬hasAspect acc a then acc ++ [(a, v)] else acc

/-- One iteration of the token loop of
`GrammarAnalyzer._analyze_used_grammar_aspects`, in source order:
tense, articles, prepositions, modal verbs, passive voice, relative
clauses, each inserted only on first occurrence. -/
def scanStep (acc : List (GrammarAspect × ℚ)) (t : Tok) (next? : Option Tok) :
    List (GrammarAspect × ℚ) :=
  let acc :=
    match identifyTense t with
    | some tense => condInsert acc true tense (assessTenseCorrectness tense)
    | none => acc
  let acc := condInsert acc
    (pyLower t.text = "a" || pyLower t.text = "an" || pyLower t.text = "the")
    ARTICLES (assessArticleCorrectness t next?)
  let acc := condInsert acc (t.pos = "ADP") PREPOSITIONS
    assessPrepositionCorrectness
  let acc := condInsert acc (t.tag = "MD") MODAL_VERBS 80
  let acc := condInsert acc
    (t.dep = "auxpass" || (t.headDep = "auxpass" && t.pos = "VERB"))
    PASSIVE_VOICE 85
  condInsert acc (t.dep = "relcl") RELATIVE_CLAUSES 80

/-- The left-to-right token loop, carrying the successor of each token
for the article check. -/
def scanGo (acc : List (GrammarAspect × ℚ)) : List Tok → List (GrammarAspect × ℚ)
  | [] => acc
  | t :: rest => scanGo (scanStep acc t rest.head?) rest

/-- Embedding of `GrammarAnalyzer._analyze_used_grammar_aspects`: the
insertion-ordered map aspect → correctness score built by one pass over
the tokens (empty document gives the empty map). -/
def analyzeUsedGrammarAspects (toks : List Tok) : List (GrammarAspect × ℚ) :=
  scanGo [] toks

/- ------------------------------------------------------------------ -/
/- grammar_analyzer.py: adjustment, structure, accuracy, overall      -/
/- ------------------------------------------------------------------ -/

/-- The per-entry computation of
`GrammarAnalyzer._adjust_scores_with_languagetool`:
`max(30.0, score - min(per_aspect_max_penalty, len(errors) * per_aspect_penalty_step))`
with `per_aspect_penalty_step = 5.0` and `per_aspect_max_penalty = 20.0`. -/
def adjustedAspectScore (score : ℚ) (errorCount : Nat) : ℚ :=
  max 30 (score - min 20 ((errorCount : ℚ) * 5))

/-- Embedding of `GrammarAnalyzer._adjust_scores_with_languagetool`:
every aspect of the used-aspect map that also appears in the
rule-checker's `errors_by_aspect` dict is penalised once; all other
entries are copied unchanged. -/
def adjustScoresWithLanguagetool (usedAspects : List (GrammarAspect × ℚ))
    (check : CheckResult) : List (GrammarAspect × ℚ) :=
  usedAspects.map (fun p =>
    match List.lookup p.1 check.errorsByAspect with
    | some n => (p.1, adjustedAspectScore p.2 n)
    | none => p)

/-- Embedding of `GrammarAnalyzer._identify_unused_aspects`:
the fixed universe minus the used keys. -/
def identifyUnusedAspects (usedAspects : List (GrammarAspect × ℚ)) :
    Finset GrammarAspect :=
  allAspects \ (usedAspects.map Prod.fst).toFinset

/-- Arithmetic mean of a list of rationals (`statistics.mean` /
`sum(...) / len(...)`). -/
def qMean (l : List ℚ) : ℚ := l.sum / l.length

/-- Per-sentence score of `GrammarAnalyzer._analyze_sentence_structure`:
90 with subject+verb+object, 75 with subject+verb, 60 with a verb only,
40 otherwise. -/
def sentenceScore (sent : List Tok) : ℚ :=
  let hasSubject := sent.any (fun t =>
    t.dep = "nsubj" || t.dep = "nsubjpass" || t.dep = "csubj")
  let hasVerb := sent.any (fun t => t.pos = "VERB")
  let hasObject := sent.any (fun t =>
    t.dep = "dobj" || t.dep = "iobj" || t.dep = "pobj" || t.dep = "obj")
  if hasSubject ∧ hasVerb ∧ hasObject then 90
  else if hasSubject ∧ hasVerb then 75
  else if hasVerb then 60
  else 40

/-- Embedding of `GrammarAnalyzer._analyze_sentence_structure`: mean of
the per-sentence scores, 60.0 when there are no sentences. -/
def analyzeSentenceStructure (sents : List (List Tok)) : ℚ :=
  if sents = [] then 60 else qMean (sents.map sentenceScore)

/-- Embedding of `GrammarAnalyzer._analyze_sentence_complexity`:
the fraction of sentences with a subordinate clause, a coordinating
conjunction, or more than one non-finite verb form, times 100. -/
def sentenceIsComplex (sent : List Tok) : Bool :=
  let subClauses := (sent.filter (fun t =>
    t.dep = "acl" || t.dep = "advcl" || t.dep = "relcl" ||
    t.dep = "ccomp" || t.dep = "xcomp")).length
  let complexConjs := sent.any (fun t =>
    pyLower t.text = "and" || pyLower t.text = "but" || pyLower t.text = "or" ||
    pyLower t.text = "nor" || pyLower t.text = "yet" || pyLower t.text = "so")
  let nonFinite := (sent.filter (fun t =>
    (t.tag = "VBG" || t.tag = "VBN") && t.dep ≠ "aux")).length
  subClauses > 0 || complexConjs || nonFinite > 1

def analyzeSentenceComplexity (sents : List (List Tok)) : ℚ :=
  if sents = [] then 0
  else (((sents.filter sentenceIsComplex).length : ℚ) / sents.length) * 100

/-- Embedding of `GrammarAnalyzer._calculate_grammatical_accuracy`:
`max(30, grammar_score * 0.8)` with no aspects, otherwise
`mean(aspect scores) * 0.6 + grammar_score * 0.4`. -/
def calculateGrammaticalAccuracy (usedAspects : List (GrammarAspect × ℚ))
    (grammarScore : ℚ) : ℚ :=
  if usedAspects = [] then max 30 (grammarScore * (4/5))
  else qMean (usedAspects.map Prod.snd) * (3/5) + grammarScore * (2/5)

/-- grammar_analyzer.py `GRAMMAR_WEIGHTS`. -/
def aspectWeight : ℚ := 1/2
def structureWeight : ℚ := 3/10
def accuracyWeight : ℚ := 1/5

/-- grammar_analyzer.py `ERROR_LIMITS["global_max_penalty"]`. -/
def globalMaxPenalty : ℚ := 15

/-- Embedding of `GrammarAnalyzer._calculate_overall_grammar`: weighted
base (structure 0.7 / accuracy 0.3 with no aspects, else aspect mean 0.5
/ structure 0.3 / accuracy 0.2) minus the global LanguageTool penalty
`min(15, total_errors * 1.5)`, floored at 30. -/
def calculateOverallGrammar (usedAspects : List (GrammarAspect × ℚ))
    (structureScore accuracyScore : ℚ) (check : CheckResult) : ℚ :=
  let base :=
    if usedAspects = [] then
      structureScore * (7/10) + accuracyScore * (3/10)
    else
      qMean (usedAspects.map Prod.snd) * aspectWeight +
        structureScore * structureWeight + accuracyScore * accuracyWeight
  let penalty := min globalMaxPenalty ((check.totalErrors : ℚ) * (3/2))
  max 30 (base - penalty)

/- ------------------------------------------------------------------ -/
/- grammar_analyzer.py: GrammarAnalysis and the analyze pipeline      -/
/- ------------------------------------------------------------------ -/

/-- models.py `GrammarAnalysis`, restricted to the fields the claims
are about (the auxiliary extras metrics are not folded into scores). -/
structure GrammarAnalysis where
  usedAspects : List (GrammarAspect × ℚ)
  sentenceStructure : ℚ
  sentenceComplexity : ℚ
  grammaticalAccuracy : ℚ
  overallGrammar : ℚ
  unusedAspects : Finset GrammarAspect
  grammarCheckResult : CheckResult
deriving DecidableEq

/-- Embedding of `GrammarAnalyzer.analyze`.  The external collaborators
are parameters: `docOf` is the spaCy pipeline, `check` is
`GrammarCheckService.check_text` and `scoreOf` is
`GrammarCheckService.calculate_grammar_score` on the given text.  Blank
text (empty or whitespace-only) short-circuits to the fixed neutral
result without touching any collaborator. -/
def grammarAnalyze (docOf : String → DocM) (check : String → CheckResult)
    (scoreOf : String → ℚ) (text : String) : GrammarAnalysis :=
  if pyStrip text.toList = [] then
    { usedAspects := []
      sentenceStructure := 60
      sentenceComplexity := 0
      grammaticalAccuracy := 100
      overallGrammar := 60
      unusedAspects := allAspects
      grammarCheckResult := zeroCheck text }
  else
    let doc := docOf text
    let used0 := analyzeUsedGrammarAspects doc.toks
    let checkResult := check text
    let grammarScore := scoreOf text
    let used := adjustScoresWithLanguagetool used0 checkResult
    let unused := identifyUnusedAspects used
    let structureScore := analyzeSentenceStructure doc.sents
    let complexity := analyzeSentenceComplexity doc.sents
    let accuracy := calculateGrammaticalAccuracy used grammarScore
    let overall := calculateOverallGrammar used structureScore accuracy checkResult
    { usedAspects := used
      sentenceStructure := structureScore
      sentenceComplexity := complexity
      grammaticalAccuracy := accuracy
      overallGrammar := overall
      unusedAspects := unused
      grammarCheckResult := checkResult }

/- ------------------------------------------------------------------ -/
/- vocabulary_analyzer.py: scoring components                         -/
/- ------------------------------------------------------------------ -/

/-- Python `round(x, 2)` embedded over the rationals (round half to even
and round half up agree except at exact two-decimal ties, which none of
the statements below depend on). -/
def round2 (x : ℚ) : ℚ := (round (x * 100) : ℚ) / 100

/-- vocabulary_analyzer.py `VocabularyAnalyzer._scale`: linear
normalisation of `x` from `[lo, hi]` into `[0, 1]`, clipped. -/
def scale (x lo hi : ℚ) : ℚ :=
  if hi ≤ lo then 0 else max 0 (min 1 ((x - lo) / (hi - lo)))

/-- Embedding of `VocabularyAnalyzer._calculate_lexical_diversity`.
`numContentWords` is the number of non-stopword alphabetic tokens; the
five raw metric values (TTR, Herdan's C, inverted Maas a, approximate
MTLD and approximate HD-D) are parameters because they involve
logarithms and square roots of document statistics; each is rescaled
against its fixed empirical bounds, the five are averaged, and the
result is reported on the 100-point scale (flat 35.0 for fewer than 10
content words). -/
def calculateLexicalDiversity (numContentWords : Nat)
    (ttr herdanC maasInv mtld hdd : ℚ) : ℚ :=
  if numContentWords < 10 then 35
  else
    round2 (qMean [scale ttr (1/4) (4/5), scale herdanC (1/2) (6/5),
      scale maasInv (1/2) 4, scale mtld 10 150, scale hdd (1/5) (9/10)] * 100)

/-- The CEFR weights 1..6 of
`VocabularyAnalyzer._calculate_lexical_sophistication`. -/
def cefrWeight : CEFRLevel → ℚ
  | .A1 => 1 | .A2 => 2 | .B1 => 3 | .B2 => 4 | .C1 => 5 | .C2 => 6

/-- Total count of a CEFR trigger distribution (the distribution is the
dict produced by `_analyze_vocabulary_levels`, which only stores
positive counts, embedded as a count function over the six levels). -/
def distTotal (cnt : CEFRLevel → Nat) : Nat :=
  (cefrOrder.map cnt).sum

/-- Embedding of `VocabularyAnalyzer._calculate_lexical_sophistication`:
the CEFR-weighted trigger score (normalised to 100, default 30 with an
empty distribution) blended 75/25 with a rare-word bonus
`min(30, max(0, (rare_share - 0.2) * 75))`, capped at 100 and rounded. -/
def calculateLexicalSophistication (cnt : CEFRLevel → Nat)
    (rareShare : ℚ) : ℚ :=
  let cefrScore :=
    if distTotal cnt > 0 then
      ((cefrOrder.map (fun l => (cnt l : ℚ) * cefrWeight l)).sum /
        ((distTotal cnt : ℚ) * 6)) * 100
    else 30
  let rareBonus := min 30 (max 0 ((rareShare - 1/5) * 75))
  round2 (min 100 (cefrScore * (3/4) + rareBonus * (1/4)))

/-- Embedding of `VocabularyAnalyzer._analyze_word_appropriateness`
(score component only; the meta dict is reporting).  `totalAlpha` is the
number of alphabetic tokens, `informalCnt`/`academicCnt` count lemmas in
the fixed informal/academic sets, `formality` is the content-word proxy
`max(0, content_share * 100 - (pronouns + interjections) * 2)`. -/
def analyzeWordAppropriateness (totalAlpha informalCnt academicCnt : Nat)
    (formality : ℚ) : ℚ :=
  if totalAlpha = 0 then 70
  else
    let informalShare := (informalCnt : ℚ) / totalAlpha
    let academicShare := (academicCnt : ℚ) / totalAlpha
    let base : ℚ :=
      if informalShare > 12/100 then 55
      else if academicShare > 8/100 then 88
      else if academicShare > 4/100 then 80
      else 70
    max 35 (min 100 ((7/10) * base + (3/10) * min 95 formality))

/-- vocabulary_analyzer.py `WEIGHTS`. -/
def wDiversity : ℚ := 22/100
def wSophistication : ℚ := 28/100
def wAppropriateness : ℚ := 20/100
def wPosBalance : ℚ := 10/100
def wWordnet : ℚ := 15/100
def wStability : ℚ := 5/100

/-- vocabulary_analyzer.py `PENALTIES`. -/
def lexicalErrorPenalty : ℚ := 5/2
def collocationErrorPenalty : ℚ := 3/2
def maxTotalPenalty : ℚ := 25

/-- Embedding of `VocabularyAnalyzer._pos_component`: content-word score
penalised by pronoun and interjection percentages, clamped to [40, 95]. -/
def posComponent (pronPct intjPct contentShare : ℚ) : ℚ :=
  let contentScore := contentShare * 100
  let penalty := min 20 ((pronPct + intjPct) * (8/10))
  max 40 (min 95 (contentScore - penalty))

/-- Embedding of `VocabularyAnalyzer._stability_component`: consensus of
the three main metrics minus penalties for extreme rare-word share or
average word length, clamped to [30, 95]. -/
def stabilityComponent (diversity sophistication appropriateness
    rareShare avgWordLen : ℚ) : ℚ :=
  let trio := [diversity, sophistication, appropriateness]
  let spread := trio.foldr max diversity - trio.foldr min diversity
  let consensus := max 0 (100 - spread)
  let rarePen := max 0 ((rareShare - 35/100) * 60)
  let lenPen := max 0 ((avgWordLen - 17/2) * 6)
  max 30 (min 95 (consensus - rarePen - lenPen))

/-- The highest key of a non-empty CEFR trigger distribution under the
`x.value` string order (which coincides with the A1 < ... < C2 ladder);
`none` when the distribution is empty. -/
def highestObserved (cnt : CEFRLevel → Nat) : Option CEFRLevel :=
  (cefrOrder.filter (fun l => 0 < cnt l)).getLast?

/-- The CEFR bonus map of `_calculate_overall_vocabulary`. -/
def cefrBonus : CEFRLevel → ℚ
  | .A1 => 0 | .A2 => 4 | .B1 => 8 | .B2 => 12 | .C1 => 18 | .C2 => 24

/-- Embedding of `VocabularyAnalyzer._calculate_overall_vocabulary`:
weighted sum of the six components, minus the error penalty
`min(25, lexical*2.5 + collocation*1.5)` floored at 30, plus the bonus
for the single highest observed CEFR trigger level capped at 100 (the
cap is applied only when the distribution is non-empty), rounded to two
decimals.  The WordNet component is
`0.55 * synonym_diversity + 0.30 * polysemy + 0.15 * semantic_density`. -/
def calculateOverallVocabulary (cnt : CEFRLevel → Nat)
    (diversity sophistication appropriateness : ℚ)
    (lexicalErrors collocationErrors : Nat)
    (wnDiv wnPoly wnSem : ℚ)
    (pronPct intjPct contentShare avgWordLen rareShare : ℚ) : ℚ :=
  let posComp := posComponent pronPct intjPct contentShare
  let wordnetComponent := (55/100) * wnDiv + (30/100) * wnPoly + (15/100) * wnSem
  let stability := stabilityComponent diversity sophistication
    appropriateness rareShare avgWordLen
  let base :=
    wDiversity * diversity + wSophistication * sophistication +
      wAppropriateness * appropriateness + wPosBalance * posComp +
      wWordnet * wordnetComponent + wStability * stability
  let penalty := min maxTotalPenalty
    ((lexicalErrors : ℚ) * lexicalErrorPenalty +
      (collocationErrors : ℚ) * collocationErrorPenalty)
  let final := max 30 (base - penalty)
  let final :=
    match highestObserved cnt with
    | some highest => min 100 (final + cefrBonus highest)
    | none => final
  round2 final

/- ------------------------------------------------------------------ -/
/- wordnet_analyzer.py: the three richness sub-scores                 -/
/- ------------------------------------------------------------------ -/

/-- Bucket score of `WordNetAnalyzer._calculate_synonym_diversity` for
one word with `n` synonyms. -/
def synonymBucket (n : Nat) : ℚ :=
  if n > 10 then 100 else if n > 5 then 80 else if n > 2 then 60
  else if n > 0 then 40 else 20

/-- Embedding of `WordNetAnalyzer._calculate_synonym_diversity`: mean of
the bucket scores over the unique words (given here by their synonym
counts); 0.0 for an empty word list. -/
def calculateSynonymDiversity (synCounts : List Nat) : ℚ :=
  if synCounts = [] then 0 else qMean (synCounts.map synonymBucket)

/-- Bucket score of `WordNetAnalyzer._calculate_polysemy_score` for one
word with `n` synsets. -/
def polysemyBucket (n : Nat) : ℚ :=
  if n > 5 then 100 else if n > 3 then 75 else if n > 1 then 50 else 25

/-- Embedding of `WordNetAnalyzer._calculate_polysemy_score`. -/
def calculatePolysemyScore (synsetCounts : List Nat) : ℚ :=
  if synsetCounts = [] then 0 else qMean (synsetCounts.map polysemyBucket)

/-- Embedding of `WordNetAnalyzer._calculate_semantic_density`:
`min(100, connected / pairs * 100)` over the unique-lemma pairs, 0 when
there are fewer than two unique words (whence no pairs). -/
def calculateSemanticDensity (uniqueWords connected pairs : Nat) : ℚ :=
  if uniqueWords < 2 then 0
  else if pairs = 0 then 0
  else min 100 (((connected : ℚ) / pairs) * 100)

/- ------------------------------------------------------------------ -/
/- text_analyzer.py: confidence                                       -/
/- ------------------------------------------------------------------ -/

/-- Embedding of `TextAnalyzer._calculate_confidence`:
`max(25, min(95, 40 + min(30, word_count / 5) - min(20, |grammar - vocabulary| / 3)))`. -/
def calculateConfidence (wordCount : Nat) (overallGrammar overallVocabulary : ℚ) : ℚ :=
  let diff := |overallGrammar - overallVocabulary|
  max 25 (min 95 (40 + min 30 ((wordCount : ℚ) / 5) - min 20 (diff / 3)))

/- ------------------------------------------------------------------ -/
/- question_bank.py and models.py TestQuestion                        -/
/- ------------------------------------------------------------------ -/

/-- models.py `TestQuestion` (IRT defaults 0.5 / 1.0 as in the model). -/
structure TestQuestion where
  id : String
  qtype : QuestionType
  aspect : GrammarAspect
  question : String
  options : List String
  correctAnswer : String
  difficulty : CEFRLevel
  topic : String
  difficultyParam : ℚ := 1/2
  discriminationParam : ℚ := 1
deriving DecidableEq, Repr

/-- question_bank.py `enhance_questions_with_irt`: sets the IRT
parameters of every question from its difficulty level. -/
def enhanceQuestionsWithIrt (questions : List TestQuestion) : List TestQuestion :=
  questions.map (fun q =>
    match q.difficulty with
    | .A1 => { q with difficultyParam := 2/10, discriminationParam := 8/10 }
    | .A2 => { q with difficultyParam := 4/10, discriminationParam := 1 }
    | .B1 => { q with difficultyParam := 6/10, discriminationParam := 12/10 }
    | .B2 => { q with difficultyParam := 8/10, discriminationParam := 14/10 }
    | _ => { q with difficultyParam := 1, discriminationParam := 16/10 })

/-- question_bank.py `QUESTION_BANK`: the six shipped questions, in the
order of the source list, after IRT enhancement. -/
def questionBank : List TestQuestion :=
  enhanceQuestionsWithIrt
    [ { id := "g_t_1", qtype := .GRAMMAR_TENSES, aspect := PRESENT_SIMPLE,
        question := "She ______ to school every day.",
        options := ["go", "goes", "went", "going"], correctAnswer := "goes",
        difficulty := .A1, topic := "present_simple" },
      { id := "g_t_2", qtype := .GRAMMAR_TENSES, aspect := PAST_SIMPLE,
        question := "They ______ football yesterday.",
        options := ["play", "plays", "played", "playing"],
        correctAnswer := "played", difficulty := .A1, topic := "past_simple" },
      { id := "g_t_3", qtype := .GRAMMAR_TENSES, aspect := PRESENT_PERFECT,
        question := "I ______ here since 2010.",
        options := ["live", "lived", "have lived", "am living"],
        correctAnswer := "have lived", difficulty := .B1,
        topic := "present_perfect" },
      { id := "g_a_1", qtype := .GRAMMAR_ARTICLES, aspect := ARTICLES,
        question := "She is ______ honest person.",
        options := ["a", "an", "the", "-"], correctAnswer := "an",
        difficulty := .A1, topic := "articles" },
      { id := "v_c_1", qtype := .VOCABULARY_COMPLEXITY, aspect := PRESENT_SIMPLE,
        question := "The company decided to ______ the new project due to budget constraints.",
        options := ["terminate", "cease", "abandon", "conclude"],
        correctAnswer := "abandon", difficulty := .B2,
        topic := "advanced_vocabulary" },
      { id := "v_a_1", qtype := .VOCABULARY_APPROPRIATENESS,
        aspect := PRESENT_SIMPLE,
        question := "In a formal letter, use a formal verb phrase instead of an informal one.",
        options := ["complain", "inform you", "let you know", "tell you"],
        correctAnswer := "inform you", difficulty := .B1,
        topic := "formal_vocabulary" } ]

/- ------------------------------------------------------------------ -/
/- diagnostic_engine.py                                               -/
/- ------------------------------------------------------------------ -/

/-- The slice of `AnalysisResult` the diagnostic engine reads:
`grammar.used_aspects` (in dict insertion order), the
`grammar.unused_aspects` set (as the list Python iterates it in) and
`preliminary_cefr`. -/
structure EssayResult where
  usedAspects : List (GrammarAspect × ℚ)
  unusedAspects : List GrammarAspect
  preliminaryCefr : CEFRLevel
deriving DecidableEq, Repr

/-- diagnostic_engine.py `aspect_to_type`: the fixed aspect →
question-type table (conditionals, passive voice, modal verbs and
relative clauses have no mapped type and are skipped). -/
def aspectToType : GrammarAspect → Option QuestionType
  | PRESENT_SIMPLE | PRESENT_CONTINUOUS | PAST_SIMPLE | PAST_CONTINUOUS
  | PRESENT_PERFECT | PAST_PERFECT | FUTURE_SIMPLE | FUTURE_CONTINUOUS
  | FUTURE_PERFECT => some .GRAMMAR_TENSES
  | ARTICLES => some .GRAMMAR_ARTICLES
  | PREPOSITIONS => some .GRAMMAR_PREPOSITIONS
  | _ => none

/-- Embedding of `DiagnosticEngine._get_questions_by_aspect_and_level`. -/
def getQuestionsByAspectAndLevel (bank : List TestQuestion)
    (aspect : GrammarAspect) (level : CEFRLevel) (maxQuestions : Nat) :
    List TestQuestion :=
  (bank.filter (fun q => q.aspect = aspect ∧ q.difficulty = level)).take
    maxQuestions

/-- Embedding of `DiagnosticEngine._get_questions_by_type_and_level`. -/
def getQuestionsByTypeAndLevel (bank : List TestQuestion)
    (questionType : QuestionType) (level : CEFRLevel) (maxQuestions : Nat) :
    List TestQuestion :=
  (bank.filter (fun q => q.qtype = questionType ∧ q.difficulty = level)).take
    maxQuestions

/-- Embedding of `DiagnosticEngine._get_questions_by_level`. -/
def getQuestionsByLevel (bank : List TestQuestion) (level : CEFRLevel)
    (maxQuestions : Nat) : List TestQuestion :=
  (bank.filter (fun q => q.difficulty = level)).take maxQuestions

/-- Embedding of `DiagnosticEngine._get_next_level`: successor on the
CEFR ladder, `none` past C2. -/
def getNextLevel : CEFRLevel → Option CEFRLevel
  | .A1 => some .A2 | .A2 => some .B1 | .B1 => some .B2
  | .B2 => some .C1 | .C1 => some .C2 | .C2 => none

/-- Embedding of `DiagnosticEngine._generate_questions_for_unused_aspects`:
up to one question per unused aspect, only the first four unused aspects
considered, aspects without a mapped question type skipped. -/
def generateQuestionsForUnusedAspects (bank : List TestQuestion)
    (res : EssayResult) : List TestQuestion :=
  if res.unusedAspects = [] then []
  else
    (res.unusedAspects.take 4).flatMap (fun aspect =>
      if (aspectToType aspect).isSome then
        getQuestionsByAspectAndLevel bank aspect res.preliminaryCefr 1
      else [])

/-- Embedding of `DiagnosticEngine._generate_questions_for_weak_areas`:
one question per used aspect scoring below 60. -/
def generateQuestionsForWeakAreas (bank : List TestQuestion)
    (res : EssayResult) : List TestQuestion :=
  res.usedAspects.flatMap (fun p =>
    if p.2 < 60 then
      getQuestionsByAspectAndLevel bank p.1 res.preliminaryCefr 1
    else [])

/-- Embedding of `DiagnosticEngine._generate_level_determination_questions`:
two questions at the estimated level plus one at the next level if it
exists. -/
def generateLevelDeterminationQuestions (bank : List TestQuestion)
    (res : EssayResult) : List TestQuestion :=
  getQuestionsByLevel bank res.preliminaryCefr 2 ++
    (match getNextLevel res.preliminaryCefr with
     | some nextLevel => getQuestionsByLevel bank nextLevel 1
     | none => [])

/-- Embedding of `DiagnosticEngine._generate_vocabulary_questions`:
one vocabulary-complexity and one vocabulary-appropriateness question at
the estimated level. -/
def generateVocabularyQuestions (bank : List TestQuestion)
    (res : EssayResult) : List TestQuestion :=
  getQuestionsByTypeAndLevel bank .VOCABULARY_COMPLEXITY
      res.preliminaryCefr 1 ++
    getQuestionsByTypeAndLevel bank .VOCABULARY_APPROPRIATENESS
      res.preliminaryCefr 1

/-- Embedding of `DiagnosticEngine.generate_followup_test`: the four
selection steps are concatenated, shuffled (`random.shuffle`, passed
here as an explicit reordering function) and truncated to ten. -/
def generateFollowupTest (shuffle : List TestQuestion → List TestQuestion)
    (bank : List TestQuestion) (res : EssayResult) : List TestQuestion :=
  (shuffle
    (generateQuestionsForUnusedAspects bank res ++
      generateQuestionsForWeakAreas bank res ++
      generateLevelDeterminationQuestions bank res ++
      generateVocabularyQuestions bank res)).take 10

/-- A concrete essay result for instantiating the diagnostic-engine
claims: present perfect was used with a weak score of 50, the other 14
aspects are unused (iterated with the future tenses first), and the
preliminary level is B1. -/
def diagResultExample : EssayResult :=
  { usedAspects := [(PRESENT_PERFECT, 50)]
    unusedAspects := [FUTURE_SIMPLE, FUTURE_CONTINUOUS, FUTURE_PERFECT,
      PAST_CONTINUOUS, PRESENT_SIMPLE, PAST_SIMPLE, PRESENT_CONTINUOUS,
      PAST_PERFECT, CONDITIONALS, PASSIVE_VOICE, MODAL_VERBS,
      RELATIVE_CLAUSES, ARTICLES, PREPOSITIONS]
    preliminaryCefr := .B1 }

/- ------------------------------------------------------------------ -/
/- analyzer.py: the analyze_essay entry point                         -/
/- ------------------------------------------------------------------ -/

/-- The fields of models.py `AnalysisResult` that `analyze_essay` fills
from the text metrics and the grammar engine (the remaining fields are
carried by the `grammar` result and the scoring parameters and do not
bear on the claims below). -/
structure AnalysisResultM where
  textLength : Nat
  wordCount : Nat
  sentenceCount : Nat
  avgSentenceLength : ℚ
  grammar : GrammarAnalysis
deriving DecidableEq

/-- Embedding of `EnglishAnalyzer.analyze_essay` up to the point the
claims are about: the validation gate raises `ValueError` (modelled as
`Except.error` carrying the validation information, which holds the
observed word count and the status) exactly when the validation is not
"VALID"; otherwise the text proceeds to analysis (`analysis text`, the
`TextAnalyzer.analyze` collaborator) and the result record stores
`word_count = validation["word_count"]` together with the text metrics. -/
def analyzeEssay (analysis : String → GrammarAnalysis) (text : String) :
    Except ValidationInfo AnalysisResultM :=
  let validation := validateText text
  if ¬validation.isValid then
    Except.error validation
  else
    let grammarResult := analysis text
    let sentenceCount := countSentences text
    Except.ok
      { textLength := text.length
        wordCount := validation.wordCount
        sentenceCount := sentenceCount
        avgSentenceLength :=
          if sentenceCount > 0 then
            (validation.wordCount : ℚ) / sentenceCount
          else 0
        grammar := grammarResult }

/-- A text of `n` words, each the single letter a followed by a space;
used as the concrete boundary input for the validation claims. -/
def wordsA (n : Nat) : String :=
  String.mk (List.flatten (List.replicate n ['a', ' ']))

/-- A text of `n` chunks consisting only of punctuation and digits. -/
def punctChunks (n : Nat) : String :=
  String.mk (List.flatten (List.replicate n ['!', '7', '?', ' ']))

/-- A concrete document collaborator (empty parse) used to instantiate
theorems at concrete inputs. -/
def trivialDoc : DocM := { toks := [], sents := [] }

/-- A concrete analysis collaborator built from the embedded grammar
pipeline with an always-available zero-error rule checker. -/
def dummyAnalysis : String → GrammarAnalysis :=
  fun text => grammarAnalyze (fun _ => trivialDoc) zeroCheck (fun _ => 100) text

/- ------------------------------------------------------------------ -/
/- Helper lemmas: pySplit on repeated chunks                          -/
/- ------------------------------------------------------------------ -/

theorem splitAux_nonspace (w : List Char) :
    ∀ (rest acc : List Char), (∀ c ∈ w, isPySpace c = false) →
      splitAux (w ++ rest) acc = splitAux rest (w.reverse ++ acc) := by
  induction w with
  | nil => intro rest acc _; simp
  | cons c w ih =>
      intro rest acc h
      have hc : isPySpace c = false := h c (by simp)
      have hw : ∀ x ∈ w, isPySpace x = false := fun x hx => h x (by simp [hx])
      simp only [List.cons_append, splitAux, hc, Bool.false_eq_true, if_false]
      have step : splitAux (w ++ rest) (c :: acc) =
          splitAux rest (w.reverse ++ (c :: acc)) := ih rest (c :: acc) hw
      rw [show (w.append rest) = w ++ rest from rfl, step]
      simp [List.append_assoc]

theorem splitAux_chunks (w : List Char) (hw : w ≠ [])
    (hns : ∀ c ∈ w, isPySpace c = false) :
    ∀ n : Nat, splitAux ((List.replicate n (w ++ [' '])).flatten) [] =
      List.replicate n w := by
  intro n
  induction n with
  | zero => rfl
  | succ n ih =>
      have : (List.replicate (n + 1) (w ++ [' '])).flatten =
          w ++ (' ' :: (List.replicate n (w ++ [' '])).flatten) := by
        simp [List.replicate_succ]
      rw [this, splitAux_nonspace w _ [] hns]
      have hrev : w.reverse ++ ([] : List Char) ≠ [] := by
        simp [hw]
      simp only [splitAux, isPySpace, if_pos]
      rw [if_neg hrev]
      simp [ih, List.replicate_succ]

theorem pySplit_wordsA (n : Nat) : pySplit (wordsA n) = List.replicate n ['a'] := by
  have : (wordsA n).toList = (List.replicate n (['a'] ++ [' '])).flatten := rfl
  rw [pySplit, this, splitAux_chunks ['a'] (by simp) (by intro c hc; simp at hc; simp [hc, isPySpace])]

theorem pySplit_punctChunks (n : Nat) :
    pySplit (punctChunks n) = List.replicate n ['!', '7', '?'] := by
  have : (punctChunks n).toList =
      (List.replicate n (['!', '7', '?'] ++ [' '])).flatten := rfl
  rw [pySplit, this, splitAux_chunks ['!', '7', '?'] (by simp)]
  intro c hc
  simp only [List.mem_cons, List.not_mem_nil, or_false] at hc
  rcases hc with h | h | h <;> simp [h, isPySpace]

/- ------------------------------------------------------------------ -/
/- Helper lemmas: the validation gate                                 -/
/- ------------------------------------------------------------------ -/

theorem validateText_short {text : String}
    (h : (pySplit text).length < 90) :
    validateText text =
      { wordCount := (pySplit text).length, isValid := false,
        status := "TOO_SHORT" } := by
  simp [validateText, h]

theorem validateText_long {text : String}
    (h : 400 < (pySplit text).length) :
    validateText text =
      { wordCount := (pySplit text).length, isValid := false,
        status := "TOO_LONG" } := by
  have h90 : ¬(pySplit text).length < 90 := by omega
  simp [validateText, h90, h]

theorem validateText_valid {text : String}
    (h90 : 90 ≤ (pySplit text).length) (h400 : (pySplit text).length ≤ 400) :
    validateText text =
      { wordCount := (pySplit text).length, isValid := true,
        status := "VALID" } := by
  have h1 : ¬(pySplit text).length < 90 := by omega
  have h2 : ¬400 < (pySplit text).length := by omega
  simp [validateText, h1, h2]

/- ------------------------------------------------------------------ -/
/- Claim C1                                                           -/
/- ------------------------------------------------------------------ -/

/-- C1: for every input string given to `analyze_essay`, the analysis
raises a validation error exactly when the word count is outside
[90, 400]; below 90 the error status is TOO_SHORT, above 400 it is
TOO_LONG, and in particular an 89-word text is rejected TOO_SHORT, a
401-word text is rejected TOO_LONG, and texts of exactly 90 and 400
words are accepted and proceed to analysis. -/
theorem analyzeEssay_validation_gate :
    ∀ (analysis : String → GrammarAnalysis) (text : String),
      ((∃ e, analyzeEssay analysis text = Except.error e) ↔
        ((pySplit text).length < 90 ∨ 400 < (pySplit text).length)) ∧
      ((pySplit text).length < 90 →
        analyzeEssay analysis text = Except.error
          { wordCount := (pySplit text).length, isValid := false,
            status := "TOO_SHORT" }) ∧
      (400 < (pySplit text).length →
        analyzeEssay analysis text = Except.error
          { wordCount := (pySplit text).length, isValid := false,
            status := "TOO_LONG" }) ∧
      (analyzeEssay analysis (wordsA 89) = Except.error
        { wordCount := 89, isValid := false, status := "TOO_SHORT" }) ∧
      (analyzeEssay analysis (wordsA 401) = Except.error
        { wordCount := 401, isValid := false, status := "TOO_LONG" }) ∧
      (∃ r, analyzeEssay analysis (wordsA 90) = Except.ok r) ∧
      (∃ r, analyzeEssay analysis (wordsA 400) = Except.ok r) := by
  have hshort : ∀ (analysis : String → GrammarAnalysis) (text : String),
      (pySplit text).length < 90 →
      analyzeEssay analysis text = Except.error
        { wordCount := (pySplit text).length, isValid := false,
          status := "TOO_SHORT" } := by
    intro analysis text h
    simp [analyzeEssay, validateText_short h]
  have hlong : ∀ (analysis : String → GrammarAnalysis) (text : String),
      400 < (pySplit text).length →
      analyzeEssay analysis text = Except.error
        { wordCount := (pySplit text).length, isValid := false,
          status := "TOO_LONG" } := by
    intro analysis text h
    simp [analyzeEssay, validateText_long h]
  have hok : ∀ (analysis : String → GrammarAnalysis) (text : String),
      90 ≤ (pySplit text).length → (pySplit text).length ≤ 400 →
      ∃ r, analyzeEssay analysis text = Except.ok r := by
    intro analysis text h90 h400
    have heq : analyzeEssay analysis text = Except.ok
        { textLength := text.length
          wordCount := (pySplit text).length
          sentenceCount := countSentences text
          avgSentenceLength :=
            if countSentences text > 0 then
              ((pySplit text).length : ℚ) / countSentences text
            else 0
          grammar := analysis text } := by
      simp [analyzeEssay, validateText_valid h90 h400]
    exact ⟨_, heq⟩
  intro analysis text
  have hlen89 : (pySplit (wordsA 89)).length = 89 := by
    rw [pySplit_wordsA, List.length_replicate]
  have hlen90 : (pySplit (wordsA 90)).length = 90 := by
    rw [pySplit_wordsA, List.length_replicate]
  have hlen400 : (pySplit (wordsA 400)).length = 400 := by
    rw [pySplit_wordsA, List.length_replicate]
  have hlen401 : (pySplit (wordsA 401)).length = 401 := by
    rw [pySplit_wordsA, List.length_replicate]
  refine ⟨?_, hshort analysis text, hlong analysis text, ?_, ?_, ?_, ?_⟩
  · constructor
    · rintro ⟨e, he⟩
      by_contra hcon
      push_neg at hcon
      obtain ⟨r, hr⟩ := hok analysis text (by omega) (by omega)
      rw [hr] at he
      exact Except.noConfusion he
    · rintro (h | h)
      · exact ⟨_, hshort analysis text h⟩
      · exact ⟨_, hlong analysis text h⟩
  · have := hshort analysis (wordsA 89) (by omega)
    rwa [hlen89] at this
  · have := hlong analysis (wordsA 401) (by omega)
    rwa [hlen401] at this
  · exact hok analysis (wordsA 90) (by omega) (by omega)
  · exact hok analysis (wordsA 400) (by omega) (by omega)

/-- Witness for C1 at a concrete collaborator and concrete texts. -/
theorem analyzeEssay_validation_gate_witness :
    analyzeEssay dummyAnalysis (wordsA 89) = Except.error
        { wordCount := 89, isValid := false, status := "TOO_SHORT" } ∧
      (∃ r, analyzeEssay dummyAnalysis (wordsA 90) = Except.ok r) :=
  ⟨(analyzeEssay_validation_gate dummyAnalysis (wordsA 89)).2.2.2.1,
    (analyzeEssay_validation_gate dummyAnalysis (wordsA 90)).2.2.2.2.2.1⟩

/- ------------------------------------------------------------------ -/
/- Claim C10                                                          -/
/- ------------------------------------------------------------------ -/

/-- C10: the word count used by the validation of the public analyze
entry point is the number of maximal whitespace-separated chunks of the
raw text (`str.split`), not the number of alphabetic words; chunks made
only of punctuation or digits count toward the [90, 400] bound (a text
of 90 chunks "!7?" is accepted even though it has no alphabetic word),
and the same count is stored as `AnalysisResult.word_count`. -/
theorem wordCount_is_split_length :
    ∀ (analysis : String → GrammarAnalysis) (text : String),
      ((validateText text).wordCount = (pySplit text).length) ∧
      (∀ r, analyzeEssay analysis text = Except.ok r →
        r.wordCount = (pySplit text).length) ∧
      (∃ r, analyzeEssay analysis (punctChunks 90) = Except.ok r ∧
        r.wordCount = 90) := by
  intro analysis text
  refine ⟨rfl, ?_, ?_⟩
  · intro r hr
    by_cases hv : (validateText text).isValid
    · have : analyzeEssay analysis text = Except.ok
          { textLength := text.length
            wordCount := (validateText text).wordCount
            sentenceCount := countSentences text
            avgSentenceLength :=
              if countSentences text > 0 then
                ((validateText text).wordCount : ℚ) / countSentences text
              else 0
            grammar := analysis text } := by
        simp [analyzeEssay, hv]
      rw [this] at hr
      injection hr with hr
      rw [← hr]
      rfl
    · exfalso
      have : analyzeEssay analysis text = Except.error (validateText text) := by
        simp [analyzeEssay, hv]
      rw [this] at hr
      exact Except.noConfusion hr
  · have hlen : (pySplit (punctChunks 90)).length = 90 := by
      rw [pySplit_punctChunks]; simp
    have hval : validateText (punctChunks 90) =
        { wordCount := (pySplit (punctChunks 90)).length, isValid := true,
          status := "VALID" } :=
      validateText_valid (by omega) (by omega)
    have heq : analyzeEssay analysis (punctChunks 90) = Except.ok
        { textLength := (punctChunks 90).length
          wordCount := (pySplit (punctChunks 90)).length
          sentenceCount := countSentences (punctChunks 90)
          avgSentenceLength :=
            if countSentences (punctChunks 90) > 0 then
              ((pySplit (punctChunks 90)).length : ℚ) /
                countSentences (punctChunks 90)
            else 0
          grammar := analysis (punctChunks 90) } := by
      simp [analyzeEssay, hval]
    exact ⟨_, heq, hlen⟩

/-- Witness for C10 at a concrete collaborator and text. -/
theorem wordCount_is_split_length_witness :
    (validateText (punctChunks 90)).wordCount = (pySplit (punctChunks 90)).length ∧
      (∃ r, analyzeEssay dummyAnalysis (punctChunks 90) = Except.ok r ∧
        r.wordCount = 90) :=
  ⟨(wordCount_is_split_length dummyAnalysis (punctChunks 90)).1,
    (wordCount_is_split_length dummyAnalysis (punctChunks 90)).2.2⟩

/- ------------------------------------------------------------------ -/
/- Claim C7                                                           -/
/- ------------------------------------------------------------------ -/

/-- C7: for every empty or whitespace-only input text the grammar
engine returns the fixed neutral result — overall grammar 60.0,
structural score 60.0, accuracy 100.0, empty used-aspect map, all 15
aspects unused, zero-error rule-checker bundle — and the result does
not depend on the rule-checking collaborator (it is never invoked). -/
theorem grammarAnalyze_blank_text :
    ∀ (docOf : String → DocM) (check : String → CheckResult)
      (scoreOf : String → ℚ) (text : String),
      pyStrip text.toList = [] →
      (grammarAnalyze docOf check scoreOf text =
        { usedAspects := []
          sentenceStructure := 60
          sentenceComplexity := 0
          grammaticalAccuracy := 100
          overallGrammar := 60
          unusedAspects := allAspects
          grammarCheckResult := zeroCheck text } ∧
        allAspects.card = 15 ∧
        (∀ (docOf' : String → DocM) (check' : String → CheckResult)
          (scoreOf' : String → ℚ),
          grammarAnalyze docOf check scoreOf text =
            grammarAnalyze docOf' check' scoreOf' text)) := by
  intro docOf check scoreOf text h
  have hfix : ∀ (d : String → DocM) (c : String → CheckResult)
      (s : String → ℚ),
      grammarAnalyze d c s text =
        { usedAspects := []
          sentenceStructure := 60
          sentenceComplexity := 0
          grammaticalAccuracy := 100
          overallGrammar := 60
          unusedAspects := allAspects
          grammarCheckResult := zeroCheck text } := by
    intro d c s
    simp [grammarAnalyze, show pyStrip text.data = [] from h]
  refine ⟨hfix docOf check scoreOf, by decide, ?_⟩
  intro docOf' check' scoreOf'
  rw [hfix docOf check scoreOf, hfix docOf' check' scoreOf']

/-- Witness for C7 at the whitespace-only text "  " and concrete
collaborators. -/
theorem grammarAnalyze_blank_text_witness :
    grammarAnalyze (fun _ => trivialDoc) zeroCheck (fun _ => 100) "  " =
      { usedAspects := []
        sentenceStructure := 60
        sentenceComplexity := 0
        grammaticalAccuracy := 100
        overallGrammar := 60
        unusedAspects := allAspects
        grammarCheckResult := zeroCheck "  " } :=
  (grammarAnalyze_blank_text (fun _ => trivialDoc) zeroCheck (fun _ => 100)
    "  " (by decide)).1

/- ------------------------------------------------------------------ -/
/- Claim C4                                                           -/
/- ------------------------------------------------------------------ -/

/-- C4: the overall grammar score equals
`max(30, base - min(15, total_rule_errors * 1.5))` where the base is
`aspect-mean*0.5 + structural*0.3 + accuracy*0.2` when the used-aspect
map is non-empty and `structural*0.7 + accuracy*0.3` when it is empty;
when `total_rule_errors` is zero the penalty is zero, so the score is
just `max(30, base)`. -/
theorem overallGrammar_formula :
    ∀ (used : List (GrammarAspect × ℚ)) (structureScore accuracyScore : ℚ)
      (check : CheckResult),
      (calculateOverallGrammar used structureScore accuracyScore check =
        max 30
          ((if used = [] then
              structureScore * (7/10) + accuracyScore * (3/10)
            else
              qMean (used.map Prod.snd) * (1/2) + structureScore * (3/10) +
                accuracyScore * (1/5)) -
            min 15 ((check.totalErrors : ℚ) * (3/2)))) ∧
      (check.totalErrors = 0 →
        min 15 ((check.totalErrors : ℚ) * (3/2)) = 0 ∧
        calculateOverallGrammar used structureScore accuracyScore check =
          max 30
            (if used = [] then
              structureScore * (7/10) + accuracyScore * (3/10)
            else
              qMean (used.map Prod.snd) * (1/2) + structureScore * (3/10) +
                accuracyScore * (1/5))) := by
  intro used structureScore accuracyScore check
  have hformula : calculateOverallGrammar used structureScore accuracyScore
      check =
      max 30
        ((if used = [] then
            structureScore * (7/10) + accuracyScore * (3/10)
          else
            qMean (used.map Prod.snd) * (1/2) + structureScore * (3/10) +
              accuracyScore * (1/5)) -
          min 15 ((check.totalErrors : ℚ) * (3/2))) := rfl
  refine ⟨hformula, ?_⟩
  intro h0
  have hpen : min 15 ((check.totalErrors : ℚ) * (3/2)) = 0 := by
    rw [h0]; norm_num
  refine ⟨hpen, ?_⟩
  rw [hformula, hpen, sub_zero]

/-- Witness for C4: with one used aspect at 85, structure 75, accuracy
80 and a zero-error bundle, the overall grammar score is exactly
`85*0.5 + 75*0.3 + 80*0.2 = 81` with no penalty. -/
theorem overallGrammar_formula_witness :
    calculateOverallGrammar [(PRESENT_SIMPLE, 85)] 75 80 (zeroCheck "t") = 81 := by
  have h := (overallGrammar_formula [(PRESENT_SIMPLE, 85)] 75 80
    (zeroCheck "t")).2 rfl
  rw [h.2]
  norm_num [qMean]

/- ------------------------------------------------------------------ -/
/- Claim C5                                                           -/
/- ------------------------------------------------------------------ -/

/-- C5: the rule-checker adjustment returns a map with exactly the same
keys (in the same order); each aspect that also appears in the
rule-checker's per-aspect error buckets gets
`max(30, original - min(20, error_count * 5))`, every other aspect keeps
its original score, and increasing the error count for a fixed aspect
never increases the adjusted score. -/
theorem adjustScores_spec :
    ∀ (used : List (GrammarAspect × ℚ)) (check : CheckResult),
      ((adjustScoresWithLanguagetool used check).map Prod.fst =
        used.map Prod.fst) ∧
      (∀ a v n, (a, v) ∈ used →
        List.lookup a check.errorsByAspect = some n →
        (a, max 30 (v - min 20 ((n : ℚ) * 5))) ∈
          adjustScoresWithLanguagetool used check) ∧
      (∀ a v, (a, v) ∈ used →
        List.lookup a check.errorsByAspect = none →
        (a, v) ∈ adjustScoresWithLanguagetool used check) ∧
      (∀ (v : ℚ) (n n' : Nat), n ≤ n' →
        adjustedAspectScore v n' ≤ adjustedAspectScore v n) := by
  intro used check
  refine ⟨?_, ?_, ?_, ?_⟩
  · rw [adjustScoresWithLanguagetool, List.map_map]
    apply List.map_congr_left
    intro p _
    rcases h : List.lookup p.1 check.errorsByAspect with _ | n <;>
      simp [h]
  · intro a v n hmem hlook
    have : (a, max 30 (v - min 20 ((n : ℚ) * 5))) =
        (fun p : GrammarAspect × ℚ =>
          match List.lookup p.1 check.errorsByAspect with
          | some n => (p.1, adjustedAspectScore p.2 n)
          | none => p) (a, v) := by
      simp [hlook, adjustedAspectScore]
    rw [adjustScoresWithLanguagetool, this]
    exact List.mem_map_of_mem _ hmem
  · intro a v hmem hlook
    have : (a, v) =
        (fun p : GrammarAspect × ℚ =>
          match List.lookup p.1 check.errorsByAspect with
          | some n => (p.1, adjustedAspectScore p.2 n)
          | none => p) (a, v) := by
      simp [hlook]
    rw [adjustScoresWithLanguagetool, this]
    exact List.mem_map_of_mem _ hmem
  · intro v n n' h
    have h5 : (n : ℚ) * 5 ≤ (n' : ℚ) * 5 := by
      have : (n : ℚ) ≤ (n' : ℚ) := Nat.cast_le.2 h
      nlinarith
    exact max_le_max le_rfl (sub_le_sub_left (min_le_min le_rfl h5) v)

/-- Witness for C5: one used aspect with two reported errors is
penalised by 10 points, and three errors penalise at least as much. -/
theorem adjustScores_spec_witness :
    (ARTICLES, max 30 ((70 : ℚ) - min 20 ((2 : ℕ) * 5 : ℚ))) ∈
      adjustScoresWithLanguagetool [(ARTICLES, 70)]
        { totalErrors := 2, errorsByAspect := [(ARTICLES, 2)],
          correctedText := "t" } ∧
    adjustedAspectScore 70 3 ≤ adjustedAspectScore 70 2 :=
  ⟨(adjustScores_spec [(ARTICLES, 70)]
      { totalErrors := 2, errorsByAspect := [(ARTICLES, 2)],
        correctedText := "t" }).2.1 ARTICLES 70 2 (by simp) (by simp),
    (adjustScores_spec [] (zeroCheck "t")).2.2.2 70 2 3 (by omega)⟩

/- ------------------------------------------------------------------ -/
/- Helper lemmas: the aspect scan stays inside the 15-aspect universe -/
/- ------------------------------------------------------------------ -/

theorem vbgTense_mem (t : Tok) : vbgTense t ∈ allAspects := by
  unfold vbgTense
  rcases List.find? _ t.childTexts with _ | ch
  · decide
  · dsimp only
    split_ifs <;> decide

theorem vbnTense_mem (t : Tok) : vbnTense t ∈ allAspects := by
  unfold vbnTense
  rcases List.find? _ t.childTexts with _ | ch
  · dsimp only
    split_ifs <;> decide
  · dsimp only
    split_ifs <;> decide

theorem identifyTense_mem (t : Tok) (a : GrammarAspect)
    (h : identifyTense t = some a) : a ∈ allAspects := by
  unfold identifyTense at h
  split_ifs at h <;>
    first
      | exact Option.noConfusion h
      | (injection h with h; subst h;
          first
            | decide
            | exact vbgTense_mem t
            | exact vbnTense_mem t)

theorem assessTenseCorrectness_bounds (a : GrammarAspect) :
    40 ≤ assessTenseCorrectness a ∧ assessTenseCorrectness a ≤ 85 := by
  cases a <;> constructor <;> norm_num [assessTenseCorrectness]

theorem assessArticleCorrectness_bounds (t : Tok) (next? : Option Tok) :
    40 ≤ assessArticleCorrectness t next? ∧
      assessArticleCorrectness t next? ≤ 85 := by
  unfold assessArticleCorrectness
  rcases next? with _ | nt
  · norm_num
  · dsimp only
    split_ifs <;> norm_num

theorem condInsert_mem {acc : List (GrammarAspect × ℚ)} {cond : Bool}
    {a : GrammarAspect} {v : ℚ} {p : GrammarAspect × ℚ}
    (h : p ∈ condInsert acc cond a v) : p ∈ acc ∨ p = (a, v) := by
  unfold condInsert at h
  split_ifs at h
  · rcases List.mem_append.1 h with h | h
    · exact Or.inl h
    · simp at h; exact Or.inr h
  · exact Or.inl h

/-- Every entry produced by one scan step either was already present or
is a fresh entry whose key lies in the 15-aspect universe and whose
score lies in [40, 85]. -/
theorem scanStep_mem {acc : List (GrammarAspect × ℚ)} {t : Tok}
    {next? : Option Tok} {p : GrammarAspect × ℚ}
    (h : p ∈ scanStep acc t next?) :
    p ∈ acc ∨ (p.1 ∈ allAspects ∧ 40 ≤ p.2 ∧ p.2 ≤ 85) := by
  unfold scanStep at h
  rcases condInsert_mem h with h | h
  · rcases condInsert_mem h with h | h
    · rcases condInsert_mem h with h | h
      · rcases condInsert_mem h with h | h
        · rcases condInsert_mem h with h | h
          · rcases hT : identifyTense t with _ | tense <;> rw [hT] at h
            · exact Or.inl h
            · rcases condInsert_mem h with h | h
              · exact Or.inl h
              · subst h
                exact Or.inr ⟨identifyTense_mem t tense hT,
                  assessTenseCorrectness_bounds tense⟩
          · subst h
            exact Or.inr ⟨show ARTICLES ∈ allAspects by decide,
              assessArticleCorrectness_bounds t next?⟩
        · subst h
          exact Or.inr ⟨show PREPOSITIONS ∈ allAspects by decide,
            show (40 : ℚ) ≤ assessPrepositionCorrectness ∧
                assessPrepositionCorrectness ≤ 85 by
              norm_num [assessPrepositionCorrectness]⟩
      · subst h
        exact Or.inr ⟨show MODAL_VERBS ∈ allAspects by decide,
          show (40 : ℚ) ≤ 80 ∧ (80 : ℚ) ≤ 85 by norm_num⟩
    · subst h
      exact Or.inr ⟨show PASSIVE_VOICE ∈ allAspects by decide,
        show (40 : ℚ) ≤ 85 ∧ (85 : ℚ) ≤ 85 by norm_num⟩
  · subst h
    exact Or.inr ⟨show RELATIVE_CLAUSES ∈ allAspects by decide,
      show (40 : ℚ) ≤ 80 ∧ (80 : ℚ) ≤ 85 by norm_num⟩

theorem scanGo_mem :
    ∀ (toks : List Tok) (acc : List (GrammarAspect × ℚ))
      (p : GrammarAspect × ℚ), p ∈ scanGo acc toks →
      p ∈ acc ∨ (p.1 ∈ allAspects ∧ 40 ≤ p.2 ∧ p.2 ≤ 85) := by
  intro toks
  induction toks with
  | nil => intro acc p h; exact Or.inl h
  | cons t rest ih =>
      intro acc p h
      rcases ih (scanStep acc t rest.head?) p h with h | h
      · exact scanStep_mem h
      · exact Or.inr h

/-- Every entry of the used-aspect map produced by the scan has its key
in the fixed universe and its score in [40, 85]. -/
theorem analyzeUsedGrammarAspects_mem {toks : List Tok}
    {p : GrammarAspect × ℚ} (h : p ∈ analyzeUsedGrammarAspects toks) :
    p.1 ∈ allAspects ∧ 40 ≤ p.2 ∧ p.2 ≤ 85 := by
  rcases scanGo_mem toks [] p h with h | h
  · cases h
  · exact h

/-- The LanguageTool adjustment keeps the key list unchanged. -/
theorem adjust_keys (used : List (GrammarAspect × ℚ)) (check : CheckResult) :
    (adjustScoresWithLanguagetool used check).map Prod.fst =
      used.map Prod.fst := by
  rw [adjustScoresWithLanguagetool, List.map_map]
  apply List.map_congr_left
  intro p _
  rcases h : List.lookup p.1 check.errorsByAspect with _ | n <;> simp [h]

/-- Every entry of the adjusted map comes from an entry of the input
map with the same key, either unchanged or penalised through
`adjustedAspectScore`. -/
theorem adjust_values {used : List (GrammarAspect × ℚ)} {check : CheckResult}
    {p : GrammarAspect × ℚ}
    (h : p ∈ adjustScoresWithLanguagetool used check) :
    ∃ q ∈ used, p.1 = q.1 ∧
      (p.2 = q.2 ∨ ∃ n : ℕ, p.2 = adjustedAspectScore q.2 n) := by
  rw [adjustScoresWithLanguagetool] at h
  rcases List.mem_map.1 h with ⟨q, hq, hmap⟩
  refine ⟨q, hq, ?_⟩
  rcases hl : List.lookup q.1 check.errorsByAspect with _ | n <;>
    rw [hl] at hmap
  · rw [← hmap]
    exact ⟨rfl, Or.inl rfl⟩
  · rw [← hmap]
    exact ⟨rfl, Or.inr ⟨n, rfl⟩⟩

theorem adjustedAspectScore_bounds {v : ℚ} (n : ℕ) (h85 : v ≤ 85) :
    30 ≤ adjustedAspectScore v n ∧ adjustedAspectScore v n ≤ 85 := by
  unfold adjustedAspectScore
  constructor
  · exact le_max_left _ _
  · apply max_le (by norm_num)
    have hmin : (0 : ℚ) ≤ min 20 ((n : ℚ) * 5) :=
      le_min (by norm_num) (by positivity)
    linarith

/-- Every entry of the adjusted scan output has its key in the fixed
universe and its score in [30, 85]. -/
theorem adjustedScan_bounds {toks : List Tok} {check : CheckResult}
    {p : GrammarAspect × ℚ}
    (h : p ∈ adjustScoresWithLanguagetool (analyzeUsedGrammarAspects toks)
      check) :
    p.1 ∈ allAspects ∧ 30 ≤ p.2 ∧ p.2 ≤ 85 := by
  rcases adjust_values h with ⟨q, hq, hkey, hval⟩
  rcases analyzeUsedGrammarAspects_mem hq with ⟨hmem, h40, h85⟩
  refine ⟨hkey ▸ hmem, ?_⟩
  rcases hval with hval | ⟨n, hval⟩
  · rw [hval]; exact ⟨by linarith, h85⟩
  · rw [hval]; exact adjustedAspectScore_bounds n h85

/- ------------------------------------------------------------------ -/
/- Claim C3                                                           -/
/- ------------------------------------------------------------------ -/

/-- C3: for every GrammarAnalysis produced by the grammar engine (any
annotation, rule-checker and score collaborators, any text), the key
set of the used-aspect map and the unused-aspect set are disjoint and
their union is the fixed 15-aspect universe. -/
theorem used_unused_partition :
    ∀ (docOf : String → DocM) (check : String → CheckResult)
      (scoreOf : String → ℚ) (text : String),
      (((grammarAnalyze docOf check scoreOf text).usedAspects.map
          Prod.fst).toFinset ∩
        (grammarAnalyze docOf check scoreOf text).unusedAspects = ∅) ∧
      (((grammarAnalyze docOf check scoreOf text).usedAspects.map
          Prod.fst).toFinset ∪
        (grammarAnalyze docOf check scoreOf text).unusedAspects =
          allAspects) := by
  intro docOf check scoreOf text
  by_cases hb : pyStrip text.data = []
  · have hg : grammarAnalyze docOf check scoreOf text =
        { usedAspects := []
          sentenceStructure := 60
          sentenceComplexity := 0
          grammaticalAccuracy := 100
          overallGrammar := 60
          unusedAspects := allAspects
          grammarCheckResult := zeroCheck text } := by
      simp [grammarAnalyze, hb]
    rw [hg]
    constructor <;> simp
  · have hused : (grammarAnalyze docOf check scoreOf text).usedAspects =
        adjustScoresWithLanguagetool
          (analyzeUsedGrammarAspects (docOf text).toks) (check text) := by
      simp [grammarAnalyze, hb]
    have hunused : (grammarAnalyze docOf check scoreOf text).unusedAspects =
        identifyUnusedAspects
          (adjustScoresWithLanguagetool
            (analyzeUsedGrammarAspects (docOf text).toks) (check text)) := by
      simp [grammarAnalyze, hb]
    rw [hused, hunused, identifyUnusedAspects]
    have hsub : ((adjustScoresWithLanguagetool
        (analyzeUsedGrammarAspects (docOf text).toks)
        (check text)).map Prod.fst).toFinset ⊆ allAspects := by
      intro a ha
      rw [List.mem_toFinset] at ha
      rcases List.mem_map.1 ha with ⟨p, hp, rfl⟩
      exact (adjustedScan_bounds hp).1
    exact ⟨Finset.inter_sdiff_self _ _, Finset.union_sdiff_of_subset hsub⟩

/- ------------------------------------------------------------------ -/
/- Claim C8                                                           -/
/- ------------------------------------------------------------------ -/

/-- C8: for every analysis result and every question bank (and every
shuffle), `generate_followup_test` returns at most 10 questions, and an
empty or non-matching bank makes every selection step contribute the
empty list rather than an error. -/
theorem generateFollowupTest_cap :
    ∀ (shuffle : List TestQuestion → List TestQuestion)
      (bank : List TestQuestion) (res : EssayResult),
      ((generateFollowupTest shuffle bank res).length ≤ 10) ∧
      (generateQuestionsForUnusedAspects [] res = [] ∧
        generateQuestionsForWeakAreas [] res = [] ∧
        generateLevelDeterminationQuestions [] res = [] ∧
        generateVocabularyQuestions [] res = []) ∧
      (∀ (aspect : GrammarAspect) (level : CEFRLevel) (k : Nat),
        (∀ q ∈ bank, ¬(q.aspect = aspect ∧ q.difficulty = level)) →
        getQuestionsByAspectAndLevel bank aspect level k = []) ∧
      (∀ (qt : QuestionType) (level : CEFRLevel) (k : Nat),
        (∀ q ∈ bank, ¬(q.qtype = qt ∧ q.difficulty = level)) →
        getQuestionsByTypeAndLevel bank qt level k = []) ∧
      (∀ (level : CEFRLevel) (k : Nat),
        (∀ q ∈ bank, ¬q.difficulty = level) →
        getQuestionsByLevel bank level k = []) := by
  intro shuffle bank res
  refine ⟨List.length_take_le 10 _, ⟨?_, ?_, ?_, ?_⟩, ?_, ?_, ?_⟩
  · simp [generateQuestionsForUnusedAspects, getQuestionsByAspectAndLevel]
  · simp [generateQuestionsForWeakAreas, getQuestionsByAspectAndLevel]
  · rcases h : getNextLevel res.preliminaryCefr with _ | nl <;>
      simp [generateLevelDeterminationQuestions, getQuestionsByLevel, h]
  · simp [generateVocabularyQuestions, getQuestionsByTypeAndLevel]
  · intro aspect level k h
    rw [getQuestionsByAspectAndLevel, List.filter_eq_nil_iff.2 (by
      intro q hq
      simpa using h q hq), List.take_nil]
  · intro qt level k h
    rw [getQuestionsByTypeAndLevel, List.filter_eq_nil_iff.2 (by
      intro q hq
      simpa using h q hq), List.take_nil]
  · intro level k h
    rw [getQuestionsByLevel, List.filter_eq_nil_iff.2 (by
      intro q hq
      simpa using h q hq), List.take_nil]

/-- Witness for C8 at the shipped bank, the identity shuffle and a
concrete result; the non-matching getter hypothesis is discharged for a
level with no bank question (the shipped bank has no C2 question). -/
theorem generateFollowupTest_cap_witness :
    (generateFollowupTest id questionBank diagResultExample).length ≤ 10 ∧
      getQuestionsByLevel questionBank CEFRLevel.C2 2 = [] :=
  ⟨(generateFollowupTest_cap id questionBank diagResultExample).1,
    (generateFollowupTest_cap id questionBank diagResultExample).2.2.2.2
      CEFRLevel.C2 2 (by decide)⟩

/- ------------------------------------------------------------------ -/
/- Claim C9 (corrected)                                               -/
/- ------------------------------------------------------------------ -/

/-- Counterexample to C9: the engine performs no deduplication — with
the shipped bank and an analysis result whose PRESENT_PERFECT score is
weak at preliminary level B1, the bank's only B1 tense question g_t_3
is selected both by the weak-areas step and by the level-determination
step, so the returned list (identity shuffle) repeats the identifier
g_t_3. -/
theorem followup_dedup_counterexample :
    ¬ ((generateFollowupTest id questionBank diagResultExample).map
        TestQuestion.id).Nodup := by
  decide

/-- C9 amended: the returned question list is not deduplicated — a
question matched by several selection steps appears once per step; in
particular, for the result `diagResultExample` and any shuffle that
permutes its input, the identifier g_t_3 occurs exactly twice in the
output. -/
theorem followup_no_dedup :
    ∀ (shuffle : List TestQuestion → List TestQuestion),
      (∀ l, (shuffle l).Perm l) →
      ((generateFollowupTest shuffle questionBank diagResultExample).map
        TestQuestion.id).count "g_t_3" = 2 := by
  intro shuffle hperm
  rw [generateFollowupTest]
  have hp := hperm
    (generateQuestionsForUnusedAspects questionBank diagResultExample ++
      generateQuestionsForWeakAreas questionBank diagResultExample ++
      generateLevelDeterminationQuestions questionBank diagResultExample ++
      generateVocabularyQuestions questionBank diagResultExample)
  rw [List.take_of_length_le (by rw [hp.length_eq]; decide)]
  rw [(hp.map TestQuestion.id).count_eq]
  decide

/-- Witness for the amended C9 at the identity shuffle. -/
theorem followup_no_dedup_witness :
    ((generateFollowupTest id questionBank diagResultExample).map
      TestQuestion.id).count "g_t_3" = 2 :=
  followup_no_dedup id (fun l => List.Perm.refl l)

/- ------------------------------------------------------------------ -/
/- Helper lemmas: rounding and means                                  -/
/- ------------------------------------------------------------------ -/

theorem round_q_mono {x y : ℚ} (h : x ≤ y) : round x ≤ round y := by
  rw [round_eq, round_eq]
  exact Int.floor_mono (by linarith)

theorem round2_bounds {x lo hi : ℚ} (hlo : lo ≤ x) (hhi : x ≤ hi)
    (hloInt : ∃ n : ℤ, lo = (n : ℚ)) (hhiInt : ∃ n : ℤ, hi = (n : ℚ)) :
    lo ≤ round2 x ∧ round2 x ≤ hi := by
  obtain ⟨m, rfl⟩ := hloInt
  obtain ⟨n, rfl⟩ := hhiInt
  unfold round2
  constructor
  · have h1 : round ((m : ℚ) * 100) ≤ round (x * 100) :=
      round_q_mono (by linarith)
    have h2 : round ((m : ℚ) * 100) = m * 100 := by
      rw [show ((m : ℚ) * 100) = ((m * 100 : ℤ) : ℚ) by push_cast; ring,
        round_intCast]
    rw [h2] at h1
    rw [le_div_iff₀ (by norm_num : (0:ℚ) < 100)]
    exact_mod_cast h1
  · have h1 : round (x * 100) ≤ round ((n : ℚ) * 100) :=
      round_q_mono (by linarith)
    have h2 : round ((n : ℚ) * 100) = n * 100 := by
      rw [show ((n : ℚ) * 100) = ((n * 100 : ℤ) : ℚ) by push_cast; ring,
        round_intCast]
    rw [h2] at h1
    rw [div_le_iff₀ (by norm_num : (0:ℚ) < 100)]
    exact_mod_cast h1

theorem round2_close (x : ℚ) : |round2 x - x| ≤ 1/200 := by
  unfold round2
  have h := abs_sub_round (x * 100)
  rw [abs_sub_comm] at h
  have : |(round (x * 100) : ℚ) / 100 - x| =
      |(round (x * 100) : ℚ) - x * 100| / 100 := by
    rw [← abs_of_pos (show (0:ℚ) < 100 by norm_num), ← abs_div]
    congr 1
    field_simp
    ring
  rw [this]
  rw [div_le_iff₀ (by norm_num : (0:ℚ) < 100)]
  linarith

theorem qMean_bounds {lo hi : ℚ} {l : List ℚ} (hne : l ≠ [])
    (h : ∀ x ∈ l, lo ≤ x ∧ x ≤ hi) :
    lo ≤ qMean l ∧ qMean l ≤ hi := by
  have hlen : 0 < (l.length : ℚ) := by
    have := List.length_pos.2 hne
    exact_mod_cast this
  have hsum_le : l.sum ≤ (l.length : ℚ) * hi := by
    have := List.sum_le_card_nsmul l hi (fun x hx => (h x hx).2)
    simpa [nsmul_eq_mul] using this
  have hsum_ge : (l.length : ℚ) * lo ≤ l.sum := by
    have := List.card_nsmul_le_sum l lo (fun x hx => (h x hx).1)
    simpa [nsmul_eq_mul] using this
  unfold qMean
  constructor
  · rw [le_div_iff₀ hlen]
    linarith
  · rw [div_le_iff₀ hlen]
    linarith

/- ------------------------------------------------------------------ -/
/- Helper lemmas: vocabulary component bounds                         -/
/- ------------------------------------------------------------------ -/

theorem scale_bounds (x lo hi : ℚ) : 0 ≤ scale x lo hi ∧ scale x lo hi ≤ 1 := by
  unfold scale
  split_ifs
  · norm_num
  · exact ⟨le_max_left 0 _, max_le (by norm_num) (min_le_left 1 _)⟩

theorem posComponent_bounds (pronPct intjPct contentShare : ℚ) :
    40 ≤ posComponent pronPct intjPct contentShare ∧
      posComponent pronPct intjPct contentShare ≤ 95 := by
  unfold posComponent
  exact ⟨le_max_left 40 _, max_le (by norm_num) (min_le_left 95 _)⟩

theorem stabilityComponent_bounds (d s a rareShare avgWordLen : ℚ) :
    30 ≤ stabilityComponent d s a rareShare avgWordLen ∧
      stabilityComponent d s a rareShare avgWordLen ≤ 95 := by
  unfold stabilityComponent
  exact ⟨le_max_left 30 _, max_le (by norm_num) (min_le_left 95 _)⟩

theorem lexicalDiversity_bounds (numContentWords : Nat)
    (ttr herdanC maasInv mtld hdd : ℚ) :
    0 ≤ calculateLexicalDiversity numContentWords ttr herdanC maasInv mtld hdd ∧
      calculateLexicalDiversity numContentWords ttr herdanC maasInv mtld hdd ≤
        100 := by
  unfold calculateLexicalDiversity
  split_ifs
  · norm_num
  · have hmean : 0 ≤ qMean [scale ttr (1/4) (4/5), scale herdanC (1/2) (6/5),
        scale maasInv (1/2) 4, scale mtld 10 150, scale hdd (1/5) (9/10)] ∧
        qMean [scale ttr (1/4) (4/5), scale herdanC (1/2) (6/5),
          scale maasInv (1/2) 4, scale mtld 10 150,
          scale hdd (1/5) (9/10)] ≤ 1 := by
      apply qMean_bounds (by simp)
      intro x hx
      simp only [List.mem_cons, List.not_mem_nil, or_false] at hx
      rcases hx with h | h | h | h | h <;> subst h <;> apply scale_bounds
    exact round2_bounds (by linarith [hmean.1]) (by linarith [hmean.2])
      ⟨0, by norm_num⟩ ⟨100, by norm_num⟩

theorem lexicalSophistication_bounds (cnt : CEFRLevel → Nat) (rareShare : ℚ) :
    0 ≤ calculateLexicalSophistication cnt rareShare ∧
      calculateLexicalSophistication cnt rareShare ≤ 100 := by
  unfold calculateLexicalSophistication
  have hbonus : 0 ≤ min 30 (max 0 ((rareShare - 1/5) * 75)) ∧
      min 30 (max 0 ((rareShare - 1/5) * 75)) ≤ 30 :=
    ⟨le_min (by norm_num) (le_max_left 0 _), min_le_left 30 _⟩
  have hcefr : 0 ≤ (if distTotal cnt > 0 then
      ((cefrOrder.map (fun l => (cnt l : ℚ) * cefrWeight l)).sum /
        ((distTotal cnt : ℚ) * 6)) * 100
    else 30) ∧
      (if distTotal cnt > 0 then
        ((cefrOrder.map (fun l => (cnt l : ℚ) * cefrWeight l)).sum /
          ((distTotal cnt : ℚ) * 6)) * 100
      else 30) ≤ 100 := by
    split_ifs with hpos
    · have htot : (0 : ℚ) < (distTotal cnt : ℚ) * 6 := by
        have : (0 : ℚ) < (distTotal cnt : ℚ) := by exact_mod_cast hpos
        linarith
      have hws0 : 0 ≤ (cefrOrder.map
          (fun l => (cnt l : ℚ) * cefrWeight l)).sum := by
        simp only [cefrOrder, List.map_cons, List.map_nil, List.sum_cons,
          List.sum_nil, add_zero, cefrWeight]
        positivity
      have hwsle : (cefrOrder.map (fun l => (cnt l : ℚ) * cefrWeight l)).sum ≤
          (distTotal cnt : ℚ) * 6 := by
        simp only [cefrOrder, distTotal, List.map_cons, List.map_nil,
          List.sum_cons, List.sum_nil, add_zero, cefrWeight]
        push_cast
        have c1 : (0 : ℚ) ≤ (cnt .A1 : ℚ) := Nat.cast_nonneg _
        have c2 : (0 : ℚ) ≤ (cnt .A2 : ℚ) := Nat.cast_nonneg _
        have c3 : (0 : ℚ) ≤ (cnt .B1 : ℚ) := Nat.cast_nonneg _
        have c4 : (0 : ℚ) ≤ (cnt .B2 : ℚ) := Nat.cast_nonneg _
        have c5 : (0 : ℚ) ≤ (cnt .C1 : ℚ) := Nat.cast_nonneg _
        have c6 : (0 : ℚ) ≤ (cnt .C2 : ℚ) := Nat.cast_nonneg _
        nlinarith [c1, c2, c3, c4, c5, c6]
      constructor
      · positivity
      · have hq : (cefrOrder.map (fun l => (cnt l : ℚ) * cefrWeight l)).sum /
            ((distTotal cnt : ℚ) * 6) ≤ 1 := by
          rw [div_le_one htot]
          exact hwsle
        linarith
    · norm_num
  apply round2_bounds
  · have := min_le_left (100 : ℚ)
      ((if distTotal cnt > 0 then
        ((cefrOrder.map (fun l => (cnt l : ℚ) * cefrWeight l)).sum /
          ((distTotal cnt : ℚ) * 6)) * 100
      else 30) * (3/4) + min 30 (max 0 ((rareShare - 1/5) * 75)) * (1/4))
    refine le_min (by norm_num) ?_
    nlinarith [hcefr.1, hbonus.1]
  · exact min_le_left 100 _
  · exact ⟨0, by norm_num⟩
  · exact ⟨100, by norm_num⟩

theorem wordAppropriateness_bounds (totalAlpha informalCnt academicCnt : Nat)
    (formality : ℚ) :
    0 ≤ analyzeWordAppropriateness totalAlpha informalCnt academicCnt
        formality ∧
      analyzeWordAppropriateness totalAlpha informalCnt academicCnt
        formality ≤ 100 := by
  unfold analyzeWordAppropriateness
  split_ifs
  · norm_num
  · exact ⟨le_trans (by norm_num) (le_max_left 35 _),
      max_le (by norm_num) (min_le_left 100 _)⟩

theorem synonymDiversity_bounds (synCounts : List Nat) :
    0 ≤ calculateSynonymDiversity synCounts ∧
      calculateSynonymDiversity synCounts ≤ 100 := by
  unfold calculateSynonymDiversity
  split_ifs with h
  · norm_num
  · have := @qMean_bounds 20 100 (synCounts.map synonymBucket)
      (by simpa using h) ?_
    · exact ⟨by linarith [this.1], this.2⟩
    · intro x hx
      rcases List.mem_map.1 hx with ⟨n, _, rfl⟩
      unfold synonymBucket
      split_ifs <;> norm_num

theorem polysemyScore_bounds (synsetCounts : List Nat) :
    0 ≤ calculatePolysemyScore synsetCounts ∧
      calculatePolysemyScore synsetCounts ≤ 100 := by
  unfold calculatePolysemyScore
  split_ifs with h
  · norm_num
  · have := @qMean_bounds 25 100 (synsetCounts.map polysemyBucket)
      (by simpa using h) ?_
    · exact ⟨by linarith [this.1], this.2⟩
    · intro x hx
      rcases List.mem_map.1 hx with ⟨n, _, rfl⟩
      unfold polysemyBucket
      split_ifs <;> norm_num

theorem semanticDensity_bounds (uniqueWords connected pairs : Nat) :
    0 ≤ calculateSemanticDensity uniqueWords connected pairs ∧
      calculateSemanticDensity uniqueWords connected pairs ≤ 100 := by
  unfold calculateSemanticDensity
  split_ifs
  · norm_num
  · norm_num
  · refine ⟨le_min (by norm_num) (by positivity), min_le_left 100 _⟩

/-- The error penalty of `_calculate_overall_vocabulary` is nonnegative. -/
theorem vocabPenalty_nonneg (lexicalErrors collocationErrors : Nat) :
    0 ≤ min (25 : ℚ)
      ((lexicalErrors : ℚ) * (5/2) + (collocationErrors : ℚ) * (3/2)) := by
  apply le_min
  · norm_num
  · positivity

theorem cefrBonus_bounds (l : CEFRLevel) : 0 ≤ cefrBonus l ∧ cefrBonus l ≤ 24 := by
  cases l <;> norm_num [cefrBonus]

/-- The weighted base of `_calculate_overall_vocabulary` is at most
99.25 when the three main components and the three WordNet sub-scores
are at most 100 (the POS and stability components are clamped by the
code itself). -/
theorem vocabBase_le (d s a wnDiv wnPoly wnSem pronPct intjPct contentShare
    avgWordLen rareShare : ℚ)
    (hd : d ≤ 100) (hs : s ≤ 100) (ha : a ≤ 100)
    (h1 : wnDiv ≤ 100) (h2 : wnPoly ≤ 100) (h3 : wnSem ≤ 100) :
    wDiversity * d + wSophistication * s + wAppropriateness * a +
      wPosBalance * posComponent pronPct intjPct contentShare +
      wWordnet * ((55/100) * wnDiv + (30/100) * wnPoly + (15/100) * wnSem) +
      wStability * stabilityComponent d s a rareShare avgWordLen ≤
      (397 : ℚ) / 4 := by
  have hpos := (posComponent_bounds pronPct intjPct contentShare).2
  have hst := (stabilityComponent_bounds d s a rareShare avgWordLen).2
  unfold wDiversity wSophistication wAppropriateness wPosBalance wWordnet
    wStability
  nlinarith

/-- `_calculate_overall_vocabulary` with its internal lets expanded:
the rounded value of the penalised weighted base plus the CEFR bonus
(capped at 100 only when a trigger level was observed). -/
theorem vocabOverall_eq (cnt : CEFRLevel → Nat)
    (d s a : ℚ) (lexicalErrors collocationErrors : Nat)
    (wnDiv wnPoly wnSem pronPct intjPct contentShare avgWordLen rareShare : ℚ) :
    calculateOverallVocabulary cnt d s a lexicalErrors collocationErrors
        wnDiv wnPoly wnSem pronPct intjPct contentShare avgWordLen rareShare =
      round2 (match highestObserved cnt with
        | some highest =>
            min 100 (max 30
              ((wDiversity * d + wSophistication * s + wAppropriateness * a +
                wPosBalance * posComponent pronPct intjPct contentShare +
                wWordnet * ((55/100) * wnDiv + (30/100) * wnPoly +
                  (15/100) * wnSem) +
                wStability * stabilityComponent d s a rareShare avgWordLen) -
                min 25 ((lexicalErrors : ℚ) * (5/2) +
                  (collocationErrors : ℚ) * (3/2))) +
              cefrBonus highest)
        | none =>
            max 30
              ((wDiversity * d + wSophistication * s + wAppropriateness * a +
                wPosBalance * posComponent pronPct intjPct contentShare +
                wWordnet * ((55/100) * wnDiv + (30/100) * wnPoly +
                  (15/100) * wnSem) +
                wStability * stabilityComponent d s a rareShare avgWordLen) -
                min 25 ((lexicalErrors : ℚ) * (5/2) +
                  (collocationErrors : ℚ) * (3/2)))) := by
  unfold calculateOverallVocabulary
  rcases highestObserved cnt with _ | l <;> rfl

/-- Bounds for the overall vocabulary score when the supplied components
are in their code-guaranteed ranges. -/
theorem overallVocabulary_bounds (cnt : CEFRLevel → Nat)
    {d s a wnDiv wnPoly wnSem : ℚ}
    (lexicalErrors collocationErrors : Nat)
    (pronPct intjPct contentShare avgWordLen rareShare : ℚ)
    (hd0 : 0 ≤ d) (hd : d ≤ 100) (hs0 : 0 ≤ s) (hs : s ≤ 100)
    (ha0 : 0 ≤ a) (ha : a ≤ 100)
    (h10 : 0 ≤ wnDiv) (h1 : wnDiv ≤ 100) (h20 : 0 ≤ wnPoly) (h2 : wnPoly ≤ 100)
    (h30 : 0 ≤ wnSem) (h3 : wnSem ≤ 100) :
    0 ≤ calculateOverallVocabulary cnt d s a lexicalErrors collocationErrors
        wnDiv wnPoly wnSem pronPct intjPct contentShare avgWordLen rareShare ∧
      calculateOverallVocabulary cnt d s a lexicalErrors collocationErrors
        wnDiv wnPoly wnSem pronPct intjPct contentShare avgWordLen rareShare ≤
        100 := by
  rw [vocabOverall_eq]
  have hbase := vocabBase_le d s a wnDiv wnPoly wnSem pronPct intjPct
    contentShare avgWordLen rareShare hd hs ha h1 h2 h3
  have hpen := vocabPenalty_nonneg lexicalErrors collocationErrors
  rcases highestObserved cnt with _ | l
  · exact round2_bounds
      (le_trans (by norm_num) (le_max_left 30 _))
      (max_le (by norm_num) (by linarith))
      ⟨0, by norm_num⟩ ⟨100, by norm_num⟩
  · have hb := cefrBonus_bounds l
    refine round2_bounds (le_min (by norm_num) ?_) (min_le_left 100 _)
      ⟨0, by norm_num⟩ ⟨100, by norm_num⟩
    have := le_max_left (30 : ℚ)
      ((wDiversity * d + wSophistication * s + wAppropriateness * a +
        wPosBalance * posComponent pronPct intjPct contentShare +
        wWordnet * ((55/100) * wnDiv + (30/100) * wnPoly +
          (15/100) * wnSem) +
        wStability * stabilityComponent d s a rareShare avgWordLen) -
        min 25 ((lexicalErrors : ℚ) * (5/2) +
          (collocationErrors : ℚ) * (3/2)))
    linarith [hb.1]

/- ------------------------------------------------------------------ -/
/- Helper lemmas: grammar-side bounds                                 -/
/- ------------------------------------------------------------------ -/

theorem sentenceScore_bounds (sent : List Tok) :
    40 ≤ sentenceScore sent ∧ sentenceScore sent ≤ 90 := by
  unfold sentenceScore
  dsimp only
  split_ifs <;> norm_num

theorem sentenceStructure_bounds (sents : List (List Tok)) :
    40 ≤ analyzeSentenceStructure sents ∧
      analyzeSentenceStructure sents ≤ 90 := by
  unfold analyzeSentenceStructure
  split_ifs with h
  · norm_num
  · apply qMean_bounds (by simpa using h)
    intro x hx
    rcases List.mem_map.1 hx with ⟨sent, _, rfl⟩
    exact sentenceScore_bounds sent

theorem grammaticalAccuracy_bounds {used : List (GrammarAspect × ℚ)}
    {grammarScore : ℚ}
    (hused : ∀ p ∈ used, 30 ≤ p.2 ∧ p.2 ≤ 85)
    (hg0 : 0 ≤ grammarScore) (hg : grammarScore ≤ 100) :
    0 ≤ calculateGrammaticalAccuracy used grammarScore ∧
      calculateGrammaticalAccuracy used grammarScore ≤ 100 := by
  unfold calculateGrammaticalAccuracy
  split_ifs with h
  · constructor
    · exact le_trans (by norm_num) (le_max_left 30 _)
    · exact max_le (by norm_num) (by linarith)
  · have hmean : 30 ≤ qMean (used.map Prod.snd) ∧
        qMean (used.map Prod.snd) ≤ 85 := by
      apply qMean_bounds (by simpa using h)
      intro x hx
      rcases List.mem_map.1 hx with ⟨p, hp, rfl⟩
      exact hused p hp
    constructor <;> nlinarith [hmean.1, hmean.2]

theorem overallGrammar_bounds {used : List (GrammarAspect × ℚ)}
    {structureScore accuracyScore : ℚ} (check : CheckResult)
    (hused : ∀ p ∈ used, 30 ≤ p.2 ∧ p.2 ≤ 85)
    (hs0 : 0 ≤ structureScore) (hs : structureScore ≤ 100)
    (ha0 : 0 ≤ accuracyScore) (ha : accuracyScore ≤ 100) :
    0 ≤ calculateOverallGrammar used structureScore accuracyScore check ∧
      calculateOverallGrammar used structureScore accuracyScore check ≤
        100 := by
  unfold calculateOverallGrammar
  have hpen : 0 ≤ min globalMaxPenalty ((check.totalErrors : ℚ) * (3/2)) := by
    apply le_min
    · norm_num [globalMaxPenalty]
    · positivity
  constructor
  · exact le_trans (by norm_num) (le_max_left 30 _)
  · apply max_le (by norm_num)
    split_ifs with h
    · linarith
    · have hmean : 30 ≤ qMean (used.map Prod.snd) ∧
          qMean (used.map Prod.snd) ≤ 85 := by
        apply qMean_bounds (by simpa using h)
        intro x hx
        rcases List.mem_map.1 hx with ⟨p, hp, rfl⟩
        exact hused p hp
      unfold aspectWeight structureWeight accuracyWeight
      nlinarith [hmean.1, hmean.2]

/- ------------------------------------------------------------------ -/
/- Claim C6 (corrected)                                               -/
/- ------------------------------------------------------------------ -/

/-- Counterexample to C6 as stated: the code rounds the final score to
two decimals (`round(final, 2)`), so the returned value can differ from
the exact expression `min(100, max(30, weighted_base - penalty) +
bonus)`: with diversity 50, sophistication 50, appropriateness 50, a
synonym-diversity of 10/7 and everything else zero, the exact
expression is 12283/280 = 43.8678... while the code returns 43.87. -/
theorem overallVocabulary_rounding_counterexample :
    calculateOverallVocabulary (fun _ => 0) 50 50 50 0 0 (10/7) 0 0 0 0 0 0 0 =
        4387/100 ∧
      min (100 : ℚ) (max 30
        ((wDiversity * 50 + wSophistication * 50 + wAppropriateness * 50 +
          wPosBalance * posComponent 0 0 0 +
          wWordnet * ((55/100) * (10/7) + (30/100) * 0 + (15/100) * 0) +
          wStability * stabilityComponent 50 50 50 0 0) -
          min 25 ((0 : ℚ) * (5/2) + (0 : ℚ) * (3/2))) +
        (match highestObserved (fun _ => 0) with
          | some l => cefrBonus l
          | none => 0)) = 12283/280 ∧
      (4387 : ℚ)/100 ≠ 12283/280 := by
  have h1 : highestObserved (fun _ : CEFRLevel => (0 : Nat)) = none := rfl
  refine ⟨?_, ?_, by norm_num⟩
  · rw [vocabOverall_eq, h1]
    norm_num [posComponent, stabilityComponent, wDiversity, wSophistication,
      wAppropriateness, wPosBalance, wWordnet, wStability, maxTotalPenalty,
      lexicalErrorPenalty, collocationErrorPenalty, round2, round_eq]
  · rw [h1]
    norm_num [posComponent, stabilityComponent, wDiversity, wSophistication,
      wAppropriateness, wPosBalance, wWordnet, wStability]

/-- C6 amended: for component scores and WordNet sub-scores in their
code-guaranteed range [0, 100], the overall vocabulary score equals
`min(100, max(30, weighted_base - min(25, lexical*2.5 +
collocation*1.5)) + bonus)` **rounded to two decimal places**, where the
bonus is 0/4/8/12/18/24 for highest observed trigger level A1..C2 and 0
when no trigger level was observed; the returned value is within 1/200
of the exact expression. -/
theorem overallVocabulary_formula :
    ∀ (cnt : CEFRLevel → Nat) (d s a : ℚ) (lexE collocE : Nat)
      (wnDiv wnPoly wnSem pronPct intjPct contentShare avgWordLen
        rareShare : ℚ),
      d ≤ 100 → s ≤ 100 → a ≤ 100 →
      wnDiv ≤ 100 → wnPoly ≤ 100 → wnSem ≤ 100 →
      (calculateOverallVocabulary cnt d s a lexE collocE wnDiv wnPoly wnSem
          pronPct intjPct contentShare avgWordLen rareShare =
        round2 (min 100 (max 30
          ((wDiversity * d + wSophistication * s + wAppropriateness * a +
            wPosBalance * posComponent pronPct intjPct contentShare +
            wWordnet * ((55/100) * wnDiv + (30/100) * wnPoly +
              (15/100) * wnSem) +
            wStability * stabilityComponent d s a rareShare avgWordLen) -
            min 25 ((lexE : ℚ) * (5/2) + (collocE : ℚ) * (3/2))) +
          (match highestObserved cnt with
            | some l => cefrBonus l
            | none => 0)))) ∧
      (|calculateOverallVocabulary cnt d s a lexE collocE wnDiv wnPoly wnSem
          pronPct intjPct contentShare avgWordLen rareShare -
        min 100 (max 30
          ((wDiversity * d + wSophistication * s + wAppropriateness * a +
            wPosBalance * posComponent pronPct intjPct contentShare +
            wWordnet * ((55/100) * wnDiv + (30/100) * wnPoly +
              (15/100) * wnSem) +
            wStability * stabilityComponent d s a rareShare avgWordLen) -
            min 25 ((lexE : ℚ) * (5/2) + (collocE : ℚ) * (3/2))) +
          (match highestObserved cnt with
            | some l => cefrBonus l
            | none => 0))| ≤ 1/200) ∧
      (cefrBonus .A1 = 0 ∧ cefrBonus .A2 = 4 ∧ cefrBonus .B1 = 8 ∧
        cefrBonus .B2 = 12 ∧ cefrBonus .C1 = 18 ∧ cefrBonus .C2 = 24) := by
  intro cnt d s a lexE collocE wnDiv wnPoly wnSem pronPct intjPct
    contentShare avgWordLen rareShare hd hs ha h1 h2 h3
  have hbase := vocabBase_le d s a wnDiv wnPoly wnSem pronPct intjPct
    contentShare avgWordLen rareShare hd hs ha h1 h2 h3
  have hpen := vocabPenalty_nonneg lexE collocE
  have heq : calculateOverallVocabulary cnt d s a lexE collocE wnDiv wnPoly
      wnSem pronPct intjPct contentShare avgWordLen rareShare =
      round2 (min 100 (max 30
        ((wDiversity * d + wSophistication * s + wAppropriateness * a +
          wPosBalance * posComponent pronPct intjPct contentShare +
          wWordnet * ((55/100) * wnDiv + (30/100) * wnPoly +
            (15/100) * wnSem) +
          wStability * stabilityComponent d s a rareShare avgWordLen) -
          min 25 ((lexE : ℚ) * (5/2) + (collocE : ℚ) * (3/2))) +
        (match highestObserved cnt with
          | some l => cefrBonus l
          | none => 0))) := by
    rw [vocabOverall_eq]
    rcases highestObserved cnt with _ | l
    · have hx : max 30
          ((wDiversity * d + wSophistication * s + wAppropriateness * a +
            wPosBalance * posComponent pronPct intjPct contentShare +
            wWordnet * ((55/100) * wnDiv + (30/100) * wnPoly +
              (15/100) * wnSem) +
            wStability * stabilityComponent d s a rareShare avgWordLen) -
            min 25 ((lexE : ℚ) * (5/2) + (collocE : ℚ) * (3/2))) ≤ 100 :=
        max_le (by norm_num) (by linarith)
      dsimp only
      rw [add_zero, min_eq_right hx]
    · rfl
  refine ⟨heq, ?_, by norm_num [cefrBonus]⟩
  rw [heq]
  exact round2_close _

/-- Witness for the amended C6 at concrete components (empty trigger
distribution, all components 50, no errors). -/
theorem overallVocabulary_formula_witness :
    calculateOverallVocabulary (fun _ => 0) 50 50 50 0 0 0 0 0 0 0 0 0 0 =
      round2 (min 100 (max 30
        ((wDiversity * 50 + wSophistication * 50 + wAppropriateness * 50 +
          wPosBalance * posComponent 0 0 0 +
          wWordnet * ((55/100) * 0 + (30/100) * 0 + (15/100) * 0) +
          wStability * stabilityComponent 50 50 50 0 0) -
          min 25 ((0 : ℚ) * (5/2) + (0 : ℚ) * (3/2))) +
        (match highestObserved (fun _ => 0) with
          | some l => cefrBonus l
          | none => 0))) :=
  (overallVocabulary_formula (fun _ => 0) 50 50 50 0 0 0 0 0 0 0 0 0 0
    (by norm_num) (by norm_num) (by norm_num) (by norm_num) (by norm_num)
    (by norm_num)).1

theorem confidence_bounds (wordCount : Nat) (g v : ℚ) :
    25 ≤ calculateConfidence wordCount g v ∧
      calculateConfidence wordCount g v ≤ 95 := by
  unfold calculateConfidence
  exact ⟨le_max_left 25 _, max_le (by norm_num) (min_le_left 95 _)⟩

/- ------------------------------------------------------------------ -/
/- Claim C2                                                           -/
/- ------------------------------------------------------------------ -/

/-- C2: for every valid input, each produced score lies in [0, 100]:
the overall grammar score of the grammar pipeline (for any annotation
and rule-check collaborators whose rule-check score is itself in
[0, 100], as the embedded `calculateGrammarScore` guarantees), the
overall vocabulary score computed from the pipeline components, lexical
diversity, lexical sophistication, word appropriateness, and the
aggregator's confidence figure. -/
theorem scores_in_range :
    ∀ (docOf : String → DocM) (check : String → CheckResult)
      (scoreOf : String → ℚ) (text : String),
      (∀ t, 0 ≤ scoreOf t ∧ scoreOf t ≤ 100) →
      ∀ (cnt : CEFRLevel → Nat) (numContentWords : Nat)
        (ttr herdanC maasInv mtld hdd rareShare : ℚ)
        (totalAlpha informalCnt academicCnt : Nat) (formality : ℚ)
        (lexE collocE : Nat) (synCounts synsetCounts : List Nat)
        (uniqueWords connected pairs : Nat)
        (pronPct intjPct contentShare avgWordLen : ℚ)
        (wordCount : Nat) (g v : ℚ),
        (0 ≤ (grammarAnalyze docOf check scoreOf text).overallGrammar ∧
          (grammarAnalyze docOf check scoreOf text).overallGrammar ≤ 100) ∧
        (0 ≤ calculateOverallVocabulary cnt
            (calculateLexicalDiversity numContentWords ttr herdanC maasInv
              mtld hdd)
            (calculateLexicalSophistication cnt rareShare)
            (analyzeWordAppropriateness totalAlpha informalCnt academicCnt
              formality)
            lexE collocE
            (calculateSynonymDiversity synCounts)
            (calculatePolysemyScore synsetCounts)
            (calculateSemanticDensity uniqueWords connected pairs)
            pronPct intjPct contentShare avgWordLen rareShare ∧
          calculateOverallVocabulary cnt
            (calculateLexicalDiversity numContentWords ttr herdanC maasInv
              mtld hdd)
            (calculateLexicalSophistication cnt rareShare)
            (analyzeWordAppropriateness totalAlpha informalCnt academicCnt
              formality)
            lexE collocE
            (calculateSynonymDiversity synCounts)
            (calculatePolysemyScore synsetCounts)
            (calculateSemanticDensity uniqueWords connected pairs)
            pronPct intjPct contentShare avgWordLen rareShare ≤ 100) ∧
        (0 ≤ calculateLexicalDiversity numContentWords ttr herdanC maasInv
            mtld hdd ∧
          calculateLexicalDiversity numContentWords ttr herdanC maasInv
            mtld hdd ≤ 100) ∧
        (0 ≤ calculateLexicalSophistication cnt rareShare ∧
          calculateLexicalSophistication cnt rareShare ≤ 100) ∧
        (0 ≤ analyzeWordAppropriateness totalAlpha informalCnt academicCnt
            formality ∧
          analyzeWordAppropriateness totalAlpha informalCnt academicCnt
            formality ≤ 100) ∧
        (0 ≤ calculateConfidence wordCount g v ∧
          calculateConfidence wordCount g v ≤ 100) := by
  intro docOf check scoreOf text hscore cnt numContentWords ttr herdanC
    maasInv mtld hdd rareShare totalAlpha informalCnt academicCnt formality
    lexE collocE synCounts synsetCounts uniqueWords connected pairs pronPct
    intjPct contentShare avgWordLen wordCount g v
  have hdiv := lexicalDiversity_bounds numContentWords ttr herdanC maasInv
    mtld hdd
  have hsoph := lexicalSophistication_bounds cnt rareShare
  have happ := wordAppropriateness_bounds totalAlpha informalCnt academicCnt
    formality
  have hwn1 := synonymDiversity_bounds synCounts
  have hwn2 := polysemyScore_bounds synsetCounts
  have hwn3 := semanticDensity_bounds uniqueWords connected pairs
  have hconf := confidence_bounds wordCount g v
  refine ⟨?_, ?_, hdiv, hsoph, happ,
    ⟨by linarith [hconf.1], by linarith [hconf.2]⟩⟩
  · by_cases hb : pyStrip text.data = []
    · have hg : (grammarAnalyze docOf check scoreOf text).overallGrammar =
          60 := by
        simp [grammarAnalyze, hb]
      rw [hg]
      norm_num
    · have hused : (grammarAnalyze docOf check scoreOf text).usedAspects =
          adjustScoresWithLanguagetool
            (analyzeUsedGrammarAspects (docOf text).toks) (check text) := by
        simp [grammarAnalyze, hb]
      have hover : (grammarAnalyze docOf check scoreOf text).overallGrammar =
          calculateOverallGrammar
            (adjustScoresWithLanguagetool
              (analyzeUsedGrammarAspects (docOf text).toks) (check text))
            (analyzeSentenceStructure (docOf text).sents)
            (calculateGrammaticalAccuracy
              (adjustScoresWithLanguagetool
                (analyzeUsedGrammarAspects (docOf text).toks) (check text))
              (scoreOf text))
            (check text) := by
        simp [grammarAnalyze, hb]
      rw [hover]
      have hvals : ∀ p ∈ adjustScoresWithLanguagetool
          (analyzeUsedGrammarAspects (docOf text).toks) (check text),
          30 ≤ p.2 ∧ p.2 ≤ 85 :=
        fun p hp => (adjustedScan_bounds hp).2
      have hss := sentenceStructure_bounds (docOf text).sents
      have hacc := grammaticalAccuracy_bounds hvals (hscore text).1
        (hscore text).2
      exact overallGrammar_bounds (check text) hvals
        (by linarith [hss.1]) (by linarith [hss.2]) hacc.1 hacc.2
  · exact overallVocabulary_bounds cnt lexE collocE pronPct intjPct
      contentShare avgWordLen rareShare hdiv.1 hdiv.2 hsoph.1 hsoph.2
      happ.1 happ.2 hwn1.1 hwn1.2 hwn2.1 hwn2.2 hwn3.1 hwn3.2

/-- Witness for C2 at concrete collaborators and inputs. -/
theorem scores_in_range_witness :
    (0 ≤ (grammarAnalyze (fun _ => trivialDoc) zeroCheck (fun _ => 100)
        "x").overallGrammar ∧
      (grammarAnalyze (fun _ => trivialDoc) zeroCheck (fun _ => 100)
        "x").overallGrammar ≤ 100) ∧
    (0 ≤ calculateConfidence 100 80 70 ∧
      calculateConfidence 100 80 70 ≤ 100) :=
  ⟨(scores_in_range (fun _ => trivialDoc) zeroCheck (fun _ => 100) "x"
      (fun _ => by norm_num) (fun _ => 0) 0 0 0 0 0 0 0 0 0 0 0 0 0 [] []
      0 0 0 0 0 0 0 100 80 70).1,
    (scores_in_range (fun _ => trivialDoc) zeroCheck (fun _ => 100) "x"
      (fun _ => by norm_num) (fun _ => 0) 0 0 0 0 0 0 0 0 0 0 0 0 0 [] []
      0 0 0 0 0 0 0 100 80 70).2.2.2.2.2⟩

end EnglishApp
